import Mathlib

/-!
Shallow embedding of the CropStack marketplace settlement core.

The definitions below are translated from the TypeScript/React sources:
* `handleReserve`   — src/app/buyer/products/[id]/page.tsx (PlaceOrder)
* `handleApprove`, `handleReject`, `handleComplete`
                    — src/app/organizer/queue/page.tsx
* `handlePay`       — src/app/buyer/orders/page.tsx and the order-receipt page
* `fetchData` balance aggregation and `handleWithdraw`
                    — src/app/market/page.tsx
* `handleSubmit` / `generateCollateralId`
                    — src/app/seller/products/new/page.tsx
* product editing   — src/app/seller/products/[id]/edit/page.tsx

The Firestore store is modelled as explicit lists of records keyed by
numeric document ids (`nextId` plays the role of Firestore's fresh-id
generator).  Money and quantities are JS numbers in the source; they are
modelled as `ℚ`.  Timestamps are abstract instants modelled as `Nat`;
`Date.setDate(getDate()+7)` becomes `now + reservationOffset`.
Client-side randomness (pickup codes, collateral-id characters) is passed
in as an explicit parameter.
-/

namespace CropStack

/-- A product listing document (collection `products`). -/
structure Product where
  id : Nat
  seller_id : Nat
  name : String
  category : String
  unit : String
  price_per_unit : ℚ
  quantity_available : ℚ
  is_active : Bool
  is_collateral : Bool
  loan_amount : Option ℚ
  deriving Repr, DecidableEq

/-- An order document (collection `orders`). -/
structure Order where
  id : Nat
  buyer_id : Nat
  product_id : Nat
  seller_id : Nat
  quantity : ℚ
  total_price : ℚ
  reservation_fee : ℚ
  status : String
  fee_paid : Bool
  pickup_code : String
  buyer_name : String
  product_name : String
  created_at : Nat
  approved_at : Option Nat
  approved_by : Option String
  cancelled_at : Option Nat
  cancelled_by : Option String
  paid_at : Option Nat
  completed_at : Option Nat
  reservation_expiry : Option Nat
  deriving Repr, DecidableEq

/-- The `order_id` field of an escrow transaction: either a real order's
document id, or the synthetic string `WITHDRAWAL-…` built from a
withdrawal document id. -/
inductive OrderRef where
  | forOrder (oid : Nat)
  | withdrawalRef (wid : Nat)
  deriving Repr, DecidableEq

/-- An escrow transaction document (collection `transactions`). -/
structure Txn where
  seller_id : Nat
  order_id : OrderRef
  amount : ℚ
  status : String
  available_at : Option Nat
  released_at : Option Nat
  created_at : Nat
  deriving Repr, DecidableEq

/-- A withdrawal request document (collection `withdrawals`). -/
structure Withdrawal where
  id : Nat
  seller_id : Nat
  amount : ℚ
  status : String
  created_at : Nat
  deriving Repr, DecidableEq

/-- A collateral pledge document (collection `collaterals`). -/
structure Collateral where
  collateral_id : String
  seller_id : Nat
  seller_name : String
  product_id : Nat
  crop_name : String
  crop_category : String
  crop_quantity : ℚ
  crop_unit : String
  crop_price_per_unit : ℚ
  crop_total_value : ℚ
  loan_amount_requested : ℚ
  status : String
  created_at : Nat
  deriving Repr, DecidableEq

/-- The whole Firestore database relevant to the settlement core. -/
structure Store where
  products : List Product
  orders : List Order
  transactions : List Txn
  withdrawals : List Withdrawal
  collaterals : List Collateral
  nextId : Nat
  deriving Repr, DecidableEq

/-- The empty database. -/
def Store.empty : Store :=
  { products := [], orders := [], transactions := [], withdrawals := [],
    collaterals := [], nextId := 0 }

/-- Business-rule errors surfaced to the caller (§7 taxonomy).
`InvalidQuantity` stands for the client-side `quantity <= 0` alert. -/
inductive Err where
  | InvalidQuantity
  | NotFound
  | InsufficientStock
  | NothingToWithdraw
  deriving Repr, DecidableEq

/-- Look up a product document by id (`getDoc(doc(db, 'products', id))`). -/
def findProduct (s : Store) (pid : Nat) : Option Product :=
  s.products.find? (fun p => p.id == pid)

/-- Look up an order document by id (`getDoc(doc(db, 'orders', id))`). -/
def findOrder (s : Store) (oid : Nat) : Option Order :=
  s.orders.find? (fun o => o.id == oid)

/-- Apply `updateDoc` semantics to one product document. -/
def updateProduct (s : Store) (pid : Nat) (f : Product → Product) : Store :=
  { s with products := s.products.map (fun p => if p.id == pid then f p else p) }

/-- Apply `updateDoc` semantics to one order document. -/
def updateOrder (s : Store) (oid : Nat) (f : Order → Order) : Store :=
  { s with orders := s.orders.map (fun o => if o.id == oid then f o else o) }

/-- Status of an order as stored, if the order exists. -/
def ordStatus (s : Store) (oid : Nat) : Option String :=
  (findOrder s oid).map Order.status

/-- Available quantity of a product as stored, if the product exists. -/
def prodQty (s : Store) (pid : Nat) : Option ℚ :=
  (findProduct s pid).map Product.quantity_available

/-- The fixed forward offset (7 days) added to the payment instant:
`reservation_expiry.setDate(reservation_expiry.getDate() + 7)`. -/
def reservationOffset : Nat := 7

/-- PlaceOrder: `handleReserve` in src/app/buyer/products/[id]/page.tsx.
Validates `quantity <= 0`, re-reads the live product document, fails
with `InsufficientStock` when `quantity > latestQty`, otherwise creates
the order in status `pending` (total price = live price × quantity,
reservation fee = 5% of the subtotal) and then writes the decremented
stock `Math.max(0, latestQty - quantity)`.  Returns the new order id. -/
def placeOrderDoc (s : Store) (buyer pid : Nat) (qty : ℚ)
    (code buyerName : String) (now : Nat) (p : Product) : Order :=
  { id := s.nextId, buyer_id := buyer, product_id := pid,
    seller_id := p.seller_id, quantity := qty,
    total_price := p.price_per_unit * qty,
    reservation_fee := p.price_per_unit * qty * (5 / 100),
    status := "pending", fee_paid := true,
    pickup_code := code, buyer_name := buyerName,
    product_name := p.name, created_at := now, approved_at := none,
    approved_by := none, cancelled_at := none, cancelled_by := none,
    paid_at := none, completed_at := none, reservation_expiry := none }

/-- The two writes of a successful PlaceOrder: `addDoc` of the pending
order, then `updateDoc` of the stock to `Math.max(0, latestQty - qty)`. -/
def applyReserve (s : Store) (buyer pid : Nat) (qty : ℚ)
    (code buyerName : String) (now : Nat) (p : Product) : Store :=
  updateProduct
    { s with orders := s.orders ++ [placeOrderDoc s buyer pid qty code buyerName now p],
             nextId := s.nextId + 1 }
    pid (fun q => { q with quantity_available := max 0 (p.quantity_available - qty) })

def handleReserve (s : Store) (buyer pid : Nat) (qty : ℚ) (code : String)
    (buyerName : String) (now : Nat) : Except Err (Store × Nat) :=
  if qty ≤ 0 then .error .InvalidQuantity
  else
    match findProduct s pid with
    | none => .error .NotFound
    | some p =>
      if qty > p.quantity_available then .error .InsufficientStock
      else .ok (applyReserve s buyer pid qty code buyerName now p, s.nextId)

/-- The single write of Approve: `updateDoc` setting status `approved`
with the approval stamp.  Unconditional: no prior status is checked. -/
def approveOrderUpdate (s : Store) (oid : Nat) (organizer : String)
    (now : Nat) : Store :=
  updateOrder s oid (fun o =>
    { o with status := "approved", approved_at := some now,
             approved_by := some organizer })

/-- Approve: `handleApprove` in src/app/organizer/queue/page.tsx.  The
only failure mode is the referenced order document not existing. -/
def handleApprove (s : Store) (oid : Nat) (organizer : String) (now : Nat) :
    Option Store :=
  match findOrder s oid with
  | none => none
  | some _ => some (approveOrderUpdate s oid organizer now)

/-- First write of Reject: `updateDoc` setting status `cancelled` with
the cancellation stamp.  Unconditional: no prior status is checked. -/
def rejectOrderUpdate (s : Store) (oid : Nat) (organizer : String)
    (now : Nat) : Store :=
  updateOrder s oid (fun q =>
    { q with status := "cancelled", cancelled_at := some now,
             cancelled_by := some organizer })

/-- Second write of Reject: re-read the product document and write back
`currentQty + order.quantity` (the restore is skipped when the product
document no longer exists). -/
def rejectRestoreStock (s : Store) (pid : Nat) (qty : ℚ) : Store :=
  match findProduct s pid with
  | none => s
  | some p =>
    updateProduct s pid (fun q =>
      { q with quantity_available := p.quantity_available + qty })

/-- Reject/Cancel: `handleReject` in src/app/organizer/queue/page.tsx:
the cancellation write followed by the stock restore. -/
def handleReject (s : Store) (oid : Nat) (organizer : String) (now : Nat) :
    Option Store :=
  match findOrder s oid with
  | none => none
  | some o =>
    some (rejectRestoreStock (rejectOrderUpdate s oid organizer now)
      o.product_id o.quantity)

/-- First write of Pay (`handlePay`, step 1): `updateDoc` setting the
order to `reserved` with the payment stamp and the reservation expiry
`now + 7` days.  Unconditional: no status is checked before writing. -/
def payOrderUpdate (s : Store) (oid : Nat) (now : Nat) : Store :=
  updateOrder s oid (fun o =>
    { o with status := "reserved", paid_at := some now,
             reservation_expiry := some (now + reservationOffset) })

/-- Second write of Pay (`handlePay`, step 2): `addDoc` of a `held`
escrow transaction for the order's total price, releasable after the
reservation expiry. -/
def payAddTxn (s : Store) (oid : Nat) (now : Nat) : Store :=
  match findOrder s oid with
  | none => s
  | some o =>
    { s with transactions := s.transactions ++
        [{ seller_id := o.seller_id, order_id := .forOrder oid,
           amount := o.total_price, status := "held",
           available_at := some (now + reservationOffset),
           released_at := none, created_at := now }] }

/-- Pay: `handlePay` in src/app/buyer/orders/page.tsx (and the order
receipt page): the order update followed by the transaction insert, as
two separate sequential writes.  Fails only when the order document does
not exist; no status guard is applied. -/
def handlePay (s : Store) (oid : Nat) (now : Nat) : Option Store :=
  match findOrder s oid with
  | none => none
  | some _ => some (payAddTxn (payOrderUpdate s oid now) oid now)

/-- Pay when the second write (`addDoc` of the escrow transaction)
throws: the surrounding `catch` only alerts, so the committed first
write stands and nothing is rolled back. -/
def handlePayTxnFailure (s : Store) (oid : Nat) (now : Nat) : Option Store :=
  match findOrder s oid with
  | none => none
  | some _ => some (payOrderUpdate s oid now)

/-- First write of Complete: `updateDoc` setting status `completed`
with the completion stamp.  Unconditional: no prior status is checked. -/
def completeOrderUpdate (s : Store) (oid : Nat) (now : Nat) : Store :=
  updateOrder s oid (fun o =>
    { o with status := "completed", completed_at := some now })

/-- Second phase of Complete: the query
`where order_id == oid, where status == 'held'` followed by an update of
each hit to `released` (an empty loop when nothing is held). -/
def releaseHeldTxns (s : Store) (oid : Nat) (now : Nat) : Store :=
  { s with transactions := s.transactions.map (fun tx =>
      if tx.order_id == .forOrder oid && tx.status == "held" then
        { tx with status := "released", released_at := some now }
      else tx) }

/-- Complete: `handleComplete` in src/app/organizer/queue/page.tsx: the
completion write followed by the release loop. -/
def handleComplete (s : Store) (oid : Nat) (now : Nat) : Option Store :=
  match findOrder s oid with
  | none => none
  | some _ => some (releaseHeldTxns (completeOrderUpdate s oid now) oid now)

/-- Transactions of one seller, as fetched by the seller dashboard's
`fetchData` query (`where('seller_id', '==', user.uid)`). -/
def sellerTxns (s : Store) (sid : Nat) : List Txn :=
  s.transactions.filter (fun tx => tx.seller_id == sid)

/-- Available balance as aggregated by `fetchData` in
src/app/market/page.tsx: every transaction whose status is `cleared` or
`released` contributes its (signed) amount. -/
def availableBalance (txs : List Txn) : ℚ :=
  txs.foldl (fun acc tx =>
    if tx.status == "cleared" || tx.status == "released" then acc + tx.amount
    else acc) 0

/-- Pending payments as aggregated by `fetchData`: every transaction
whose status is `held` (and not `cleared`/`released`) contributes its
(signed) amount. -/
def pendingPayments (txs : List Txn) : ℚ :=
  txs.foldl (fun acc tx =>
    if tx.status == "cleared" || tx.status == "released" then acc
    else if tx.status == "held" then acc + tx.amount
    else acc) 0

/-- Available balance written the way the specification's §3 invariant
words it: the sum of `released`/`cleared` positive transactions plus all
negative transactions. -/
def availableBalanceSpec (txs : List Txn) : ℚ :=
  ((txs.filter (fun tx =>
      (tx.status == "cleared" || tx.status == "released") && tx.amount > 0)).map
    Txn.amount).sum +
  ((txs.filter (fun tx => tx.amount < 0)).map Txn.amount).sum

/-- Pending balance written the way the specification's §3 invariant
words it: the sum of `held` positive transactions. -/
def pendingPaymentsSpec (txs : List Txn) : ℚ :=
  ((txs.filter (fun tx => tx.status == "held" && tx.amount > 0)).map
    Txn.amount).sum

/-- The receipt handed back by a successful withdrawal
(`setLastWithdrawal`): reference id, amount, timestamp. -/
structure WithdrawReceipt where
  refId : Nat
  amount : ℚ
  date : Nat
  deriving Repr, DecidableEq

/-- Withdraw: `handleWithdraw` in src/app/market/page.tsx.  Returns
without any write when the computed available balance is ≤ 0 (modelled
as the `NothingToWithdraw` outcome); otherwise records a `withdrawals`
document and a negative `released` transaction for the full balance,
and hands back the receipt. -/
def handleWithdraw (s : Store) (sid : Nat) (now : Nat) :
    Except Err (Store × WithdrawReceipt) :=
  let bal := availableBalance (sellerTxns s sid)
  if bal ≤ 0 then .error .NothingToWithdraw
  else
    let wid := s.nextId
    let s1 : Store :=
      { s with
        withdrawals := s.withdrawals ++
          [{ id := wid, seller_id := sid, amount := bal, status := "pending",
             created_at := now }],
        nextId := s.nextId + 1 }
    let s2 : Store :=
      { s1 with transactions := s1.transactions ++
          [{ seller_id := sid, order_id := .withdrawalRef wid, amount := -bal,
             status := "released", available_at := none, released_at := none,
             created_at := now }] }
    .ok (s2, { refId := wid, amount := bal, date := now })

/-- The 32-character alphabet used by `generateCollateralId`
(`ABCDEFGHJKLMNPQRSTUVWXYZ23456789`). -/
def collateralAlphabet : List Char :=
  "ABCDEFGHJKLMNPQRSTUVWXYZ23456789".toList

/-- `generateCollateralId` in src/app/seller/products/new/page.tsx:
the literal `COL-` followed by 8 characters drawn from
`collateralAlphabet`; the random draws are passed in as `picks`. -/
def generateCollateralId (picks : List Nat) : String :=
  "COL-" ++ String.mk ((List.range 8).map (fun i =>
    collateralAlphabet.getD (picks.getD i 0 % 32) 'A'))

/-- New listing / Pledge: `handleSubmit` in
src/app/seller/products/new/page.tsx.  Always creates the product with
`is_active = !isCollateral` and `is_collateral = isCollateral`; when
pledging, additionally creates the `collaterals` record in status
`pending` with the frozen listing snapshot and the fresh `COL-` id.
Returns the new product id. -/
def handleSubmitNewProduct (s : Store) (sellerId : Nat) (isCollateral : Bool)
    (name category unit sellerName : String) (pricePerUnit qty loanAmount : ℚ)
    (picks : List Nat) (now : Nat) : Store × Nat :=
  let totalValue := pricePerUnit * qty
  let pid := s.nextId
  let p : Product :=
    { id := pid, seller_id := sellerId, name := name, category := category,
      unit := unit, price_per_unit := pricePerUnit, quantity_available := qty,
      is_active := !isCollateral, is_collateral := isCollateral,
      loan_amount := if isCollateral then some loanAmount else none }
  let s1 : Store :=
    { s with products := s.products ++ [p], nextId := s.nextId + 1 }
  if isCollateral then
    let col : Collateral :=
      { collateral_id := generateCollateralId picks, seller_id := sellerId,
        seller_name := sellerName,
        product_id := pid, crop_name := name, crop_category := category,
        crop_quantity := qty, crop_unit := unit,
        crop_price_per_unit := pricePerUnit, crop_total_value := totalValue,
        loan_amount_requested := loanAmount, status := "pending",
        created_at := now }
    ({ s1 with collaterals := s1.collaterals ++ [col] }, pid)
  else (s1, pid)

/-- Edit listing: `handleSubmit` in
src/app/seller/products/[id]/edit/page.tsx.  Rewrites the descriptive
fields, price and quantity; the `is_active`/`is_collateral` flags are
not among the updated fields. -/
def handleEditProduct (s : Store) (pid : Nat)
    (name category unit : String) (pricePerUnit qty : ℚ) : Store :=
  updateProduct s pid (fun p =>
    { p with name := name, category := category, unit := unit,
             price_per_unit := pricePerUnit, quantity_available := qty })

/-- One request-driven mutation of the store: exactly the writes the
handlers in the sources can perform, including the partially-failed Pay
(escrow insert threw after the status write committed). -/
inductive Step : Store → Store → Prop where
  | reserve {s s2 : Store} {buyer pid oid : Nat} {qty : ℚ}
      {code buyerName : String} {now : Nat}
      (h : handleReserve s buyer pid qty code buyerName now = .ok (s2, oid)) :
      Step s s2
  | approve {s s2 : Store} {oid : Nat} {org : String} {now : Nat}
      (h : handleApprove s oid org now = some s2) : Step s s2
  | reject {s s2 : Store} {oid : Nat} {org : String} {now : Nat}
      (h : handleReject s oid org now = some s2) : Step s s2
  | pay {s s2 : Store} {oid now : Nat}
      (h : handlePay s oid now = some s2) : Step s s2
  | payTxnFailure {s s2 : Store} {oid now : Nat}
      (h : handlePayTxnFailure s oid now = some s2) : Step s s2
  | complete {s s2 : Store} {oid now : Nat}
      (h : handleComplete s oid now = some s2) : Step s s2
  | withdraw {s s2 : Store} {sid now : Nat} {r : WithdrawReceipt}
      (h : handleWithdraw s sid now = .ok (s2, r)) : Step s s2
  | newProduct {s s2 : Store} {sid pid : Nat} {isCol : Bool}
      {n c u sn : String} {pr q la : ℚ} {picks : List Nat} {now : Nat}
      (h : handleSubmitNewProduct s sid isCol n c u sn pr q la picks now
             = (s2, pid)) : Step s s2
  | edit {s s2 : Store} {pid : Nat} {n c u : String} {pr q : ℚ}
      (h : handleEditProduct s pid n c u pr q = s2) : Step s s2

/-- States reachable from the empty database by handler invocations. -/
def Reachable (s : Store) : Prop :=
  Relation.ReflTransGen Step Store.empty s

/-- A guarded handler invocation: the user interface renders each action
button only when the order's fetched status permits it (Approve and
Reject on `pending`, Pay on `approved`, Mark-Picked-Up on `reserved`),
so in the sequential model every mutating call is preceded by the
corresponding live status check. -/
inductive GStep : Store → Store → Prop where
  | reserve {s s2 : Store} {buyer pid oid : Nat} {qty : ℚ}
      {code buyerName : String} {now : Nat}
      (h : handleReserve s buyer pid qty code buyerName now = .ok (s2, oid)) :
      GStep s s2
  | approve {s s2 : Store} {oid : Nat} {org : String} {now : Nat}
      (hst : ordStatus s oid = some "pending")
      (h : handleApprove s oid org now = some s2) : GStep s s2
  | reject {s s2 : Store} {oid : Nat} {org : String} {now : Nat}
      (hst : ordStatus s oid = some "pending")
      (h : handleReject s oid org now = some s2) : GStep s s2
  | pay {s s2 : Store} {oid now : Nat}
      (hst : ordStatus s oid = some "approved")
      (h : handlePay s oid now = some s2) : GStep s s2
  | payTxnFailure {s s2 : Store} {oid now : Nat}
      (hst : ordStatus s oid = some "approved")
      (h : handlePayTxnFailure s oid now = some s2) : GStep s s2
  | complete {s s2 : Store} {oid now : Nat}
      (hst : ordStatus s oid = some "reserved")
      (h : handleComplete s oid now = some s2) : GStep s s2
  | withdraw {s s2 : Store} {sid now : Nat} {r : WithdrawReceipt}
      (h : handleWithdraw s sid now = .ok (s2, r)) : GStep s s2
  | newProduct {s s2 : Store} {sid pid : Nat} {isCol : Bool}
      {n c u sn : String} {pr q la : ℚ} {picks : List Nat} {now : Nat}
      (h : handleSubmitNewProduct s sid isCol n c u sn pr q la picks now
             = (s2, pid)) : GStep s s2
  | edit {s s2 : Store} {pid : Nat} {n c u : String} {pr q : ℚ}
      (h : handleEditProduct s pid n c u pr q = s2) : GStep s s2

/-- The order-status transition table of §4.1: `pending → approved`,
`pending → cancelled`, `approved → reserved`, `reserved → completed`
(the `approved → cancelled` edge also appears in §4.1 but the organizer
queue only offers Reject on `pending` orders). -/
def allowedEdge (a b : String) : Prop :=
  (a = "pending" ∧ b = "approved") ∨ (a = "pending" ∧ b = "cancelled") ∨
  (a = "approved" ∧ b = "reserved") ∨ (a = "reserved" ∧ b = "completed")

section ListHelpers

variable {α : Type}

theorem find?_append_of_some {p : α → Bool} {l1 : List α} (l2 : List α)
    {a : α} (h : l1.find? p = some a) : (l1 ++ l2).find? p = some a := by
  induction l1 with
  | nil => simp [List.find?] at h
  | cons x l ih =>
    simp only [List.find?, List.cons_append] at h ⊢
    cases hx : p x with
    | true => simpa [hx] using h
    | false =>
      rw [hx] at h
      simpa [hx] using ih h

theorem find?_append_of_none {p : α → Bool} {l1 : List α} (l2 : List α)
    (h : l1.find? p = none) : (l1 ++ l2).find? p = l2.find? p := by
  induction l1 with
  | nil => simp
  | cons x l ih =>
    simp only [List.find?, List.cons_append] at h ⊢
    cases hx : p x with
    | true => rw [hx] at h; exact absurd h (by simp)
    | false =>
      rw [hx] at h
      simpa [hx] using ih h

theorem find?_map_pred (g : α → α) (p : α → Bool)
    (hg : ∀ a, p (g a) = p a) (l : List α) :
    (l.map g).find? p = (l.find? p).map g := by
  induction l with
  | nil => rfl
  | cons x l ih =>
    simp only [List.map, List.find?]
    cases hx : p x with
    | true => simp [hg x, hx]
    | false => simpa [hg x, hx] using ih

end ListHelpers

/-- Reading back any order after an id-preserving order update. -/
theorem findOrder_updateOrder (s : Store) (oid t : Nat) (f : Order → Order)
    (hf : ∀ o, (f o).id = o.id) :
    findOrder (updateOrder s oid f) t =
      (findOrder s t).map (fun o => if o.id == oid then f o else o) := by
  unfold findOrder updateOrder
  exact find?_map_pred _ _
    (fun o => by by_cases h : o.id == oid <;> simp [h, hf]) s.orders

/-- Reading back any product after an id-preserving product update. -/
theorem findProduct_updateProduct (s : Store) (pid t : Nat)
    (f : Product → Product) (hf : ∀ p, (f p).id = p.id) :
    findProduct (updateProduct s pid f) t =
      (findProduct s t).map (fun p => if p.id == pid then f p else p) := by
  unfold findProduct updateProduct
  exact find?_map_pred _ _
    (fun p => by by_cases h : p.id == pid <;> simp [h, hf]) s.products

/-- A found order carries the looked-up id. -/
theorem findOrder_id {s : Store} {t : Nat} {o : Order}
    (h : findOrder s t = some o) : o.id = t := by
  have := List.find?_some h
  simpa using this

/-- A found product carries the looked-up id. -/
theorem findProduct_id {s : Store} {t : Nat} {p : Product}
    (h : findProduct s t = some p) : p.id = t := by
  have := List.find?_some h
  simpa using this

theorem findOrder_updateOrder_self {s : Store} {oid : Nat} {o : Order}
    (f : Order → Order) (hf : ∀ o, (f o).id = o.id)
    (h : findOrder s oid = some o) :
    findOrder (updateOrder s oid f) oid = some (f o) := by
  rw [findOrder_updateOrder s oid oid f hf, h]
  simp [findOrder_id h]

theorem findOrder_updateOrder_ne {s : Store} {oid t : Nat}
    (f : Order → Order) (hf : ∀ o, (f o).id = o.id) (h : t ≠ oid) :
    findOrder (updateOrder s oid f) t = findOrder s t := by
  rw [findOrder_updateOrder s oid t f hf]
  cases hfind : findOrder s t with
  | none => rfl
  | some o =>
    have : o.id = t := findOrder_id hfind
    simp [this, h]

theorem findProduct_updateProduct_self {s : Store} {pid : Nat} {p : Product}
    (f : Product → Product) (hf : ∀ p, (f p).id = p.id)
    (h : findProduct s pid = some p) :
    findProduct (updateProduct s pid f) pid = some (f p) := by
  rw [findProduct_updateProduct s pid pid f hf, h]
  simp [findProduct_id h]

theorem findProduct_updateProduct_ne {s : Store} {pid t : Nat}
    (f : Product → Product) (hf : ∀ p, (f p).id = p.id) (h : t ≠ pid) :
    findProduct (updateProduct s pid f) t = findProduct s t := by
  rw [findProduct_updateProduct s pid t f hf]
  cases hfind : findProduct s t with
  | none => rfl
  | some p =>
    have : p.id = t := findProduct_id hfind
    simp [this, h]

theorem orders_updateProduct (s : Store) (pid : Nat) (f : Product → Product) :
    (updateProduct s pid f).orders = s.orders := rfl

theorem products_updateOrder (s : Store) (oid : Nat) (f : Order → Order) :
    (updateOrder s oid f).products = s.products := rfl

theorem orders_payAddTxn (s : Store) (oid now : Nat) :
    (payAddTxn s oid now).orders = s.orders := by
  unfold payAddTxn
  cases findOrder s oid <;> rfl

theorem products_payAddTxn (s : Store) (oid now : Nat) :
    (payAddTxn s oid now).products = s.products := by
  unfold payAddTxn
  cases findOrder s oid <;> rfl

/-- `ordStatus` only looks at the orders collection. -/
theorem ordStatus_congr {s s2 : Store} (h : s2.orders = s.orders) (t : Nat) :
    ordStatus s2 t = ordStatus s t := by
  unfold ordStatus findOrder
  rw [h]

/-- Status read-back after an id-preserving order update. -/
theorem ordStatus_updateOrder (s : Store) (oid t : Nat) (f : Order → Order)
    (hf : ∀ o, (f o).id = o.id) :
    ordStatus (updateOrder s oid f) t =
      if t = oid then ((findOrder s oid).map f).map Order.status
      else ordStatus s t := by
  unfold ordStatus
  by_cases ht : t = oid
  · subst ht
    rw [findOrder_updateOrder s t t f hf]
    cases hfind : findOrder s t with
    | none => simp
    | some o => simp [findOrder_id hfind]
  · rw [findOrder_updateOrder s oid t f hf]
    cases hfind : findOrder s t with
    | none => simp [ht]
    | some o =>
      have hid := findOrder_id hfind
      simp [hid, ht]

theorem orders_rejectRestoreStock (s : Store) (pid : Nat) (qty : ℚ) :
    (rejectRestoreStock s pid qty).orders = s.orders := by
  unfold rejectRestoreStock
  cases findProduct s pid <;> rfl

theorem orders_releaseHeldTxns (s : Store) (oid now : Nat) :
    (releaseHeldTxns s oid now).orders = s.orders := rfl

/-- Status effect of Approve: the target order becomes `approved`,
every other order's status is untouched. -/
theorem ordStatus_handleApprove {s s2 : Store} {oid : Nat} {org : String}
    {now : Nat} (h : handleApprove s oid org now = some s2) (t : Nat) :
    ordStatus s2 t =
      if t = oid then some "approved" else ordStatus s t := by
  unfold handleApprove at h
  cases hf : findOrder s oid with
  | none => rw [hf] at h; exact absurd h (by simp)
  | some o =>
    rw [hf] at h
    cases h
    have hrw := ordStatus_updateOrder s oid t (fun o =>
      { o with status := "approved", approved_at := some now,
               approved_by := some org }) (fun _ => rfl)
    rw [hf] at hrw
    unfold approveOrderUpdate
    rw [hrw]
    by_cases ht : t = oid <;> simp [ht]

/-- Status effect of Reject/Cancel: the target order becomes
`cancelled`, every other order's status is untouched. -/
theorem ordStatus_handleReject {s s2 : Store} {oid : Nat} {org : String}
    {now : Nat} (h : handleReject s oid org now = some s2) (t : Nat) :
    ordStatus s2 t =
      if t = oid then some "cancelled" else ordStatus s t := by
  unfold handleReject at h
  cases hf : findOrder s oid with
  | none => rw [hf] at h; exact absurd h (by simp)
  | some o =>
    rw [hf] at h
    cases h
    rw [ordStatus_congr (orders_rejectRestoreStock ..) t]
    have hrw := ordStatus_updateOrder s oid t (fun q =>
      { q with status := "cancelled", cancelled_at := some now,
               cancelled_by := some org }) (fun _ => rfl)
    rw [hf] at hrw
    unfold rejectOrderUpdate
    rw [hrw]
    by_cases ht : t = oid <;> simp [ht]

/-- Status effect of the first Pay write (shared by the full Pay and the
partially-failed Pay): the target order becomes `reserved`. -/
theorem ordStatus_payOrderUpdate {s : Store} {oid : Nat} {o : Order}
    {now : Nat} (hf : findOrder s oid = some o) (t : Nat) :
    ordStatus (payOrderUpdate s oid now) t =
      if t = oid then some "reserved" else ordStatus s t := by
  have hrw := ordStatus_updateOrder s oid t (fun o =>
    { o with status := "reserved", paid_at := some now,
             reservation_expiry := some (now + reservationOffset) })
    (fun _ => rfl)
  rw [hf] at hrw
  unfold payOrderUpdate
  rw [hrw]
  by_cases ht : t = oid <;> simp [ht]

/-- Status effect of Pay: the target order becomes `reserved`, every
other order's status is untouched. -/
theorem ordStatus_handlePay {s s2 : Store} {oid now : Nat}
    (h : handlePay s oid now = some s2) (t : Nat) :
    ordStatus s2 t =
      if t = oid then some "reserved" else ordStatus s t := by
  unfold handlePay at h
  cases hf : findOrder s oid with
  | none => rw [hf] at h; exact absurd h (by simp)
  | some o =>
    rw [hf] at h
    cases h
    rw [ordStatus_congr (orders_payAddTxn ..) t]
    exact ordStatus_payOrderUpdate hf t

/-- Status effect of the partially-failed Pay: identical to Pay on the
orders collection. -/
theorem ordStatus_handlePayTxnFailure {s s2 : Store} {oid now : Nat}
    (h : handlePayTxnFailure s oid now = some s2) (t : Nat) :
    ordStatus s2 t =
      if t = oid then some "reserved" else ordStatus s t := by
  unfold handlePayTxnFailure at h
  cases hf : findOrder s oid with
  | none => rw [hf] at h; exact absurd h (by simp)
  | some o =>
    rw [hf] at h
    cases h
    exact ordStatus_payOrderUpdate hf t

/-- Status effect of Complete: the target order becomes `completed`,
every other order's status is untouched. -/
theorem ordStatus_handleComplete {s s2 : Store} {oid now : Nat}
    (h : handleComplete s oid now = some s2) (t : Nat) :
    ordStatus s2 t =
      if t = oid then some "completed" else ordStatus s t := by
  unfold handleComplete at h
  cases hf : findOrder s oid with
  | none => rw [hf] at h; exact absurd h (by simp)
  | some o =>
    rw [hf] at h
    cases h
    rw [ordStatus_congr (orders_releaseHeldTxns ..) t]
    have hrw := ordStatus_updateOrder s oid t (fun o =>
      { o with status := "completed", completed_at := some now })
      (fun _ => rfl)
    rw [hf] at hrw
    unfold completeOrderUpdate
    rw [hrw]
    by_cases ht : t = oid <;> simp [ht]

/-- Status effect of PlaceOrder: all existing orders keep their status;
the freshly created order starts in `pending`. -/
theorem ordStatus_handleReserve {s s2 : Store} {buyer pid oid : Nat}
    {qty : ℚ} {code bn : String} {now : Nat}
    (h : handleReserve s buyer pid qty code bn now = .ok (s2, oid)) (t : Nat) :
    ordStatus s2 t = ordStatus s t ∨
      (ordStatus s t = none ∧ ordStatus s2 t = some "pending") := by
  unfold handleReserve at h
  split at h
  · exact absurd h (by simp)
  split at h
  · exact absurd h (by simp)
  split at h
  · exact absurd h (by simp)
  · rename_i p hp hq2
    cases h
    unfold applyReserve
    rw [ordStatus_congr (orders_updateProduct ..) t]
    unfold ordStatus findOrder
    dsimp only
    cases hfind : s.orders.find? (fun o => o.id == t) with
    | some a =>
      rw [find?_append_of_some _ hfind]
      exact Or.inl rfl
    | none =>
      rw [find?_append_of_none _ hfind]
      by_cases hid : (s.nextId == t)
      · right
        refine ⟨rfl, ?_⟩
        simp [List.find?, placeOrderDoc, hid]
      · left
        simp [List.find?, placeOrderDoc, hid]

theorem orders_handleWithdraw {s s2 : Store} {sid now : Nat}
    {r : WithdrawReceipt} (h : handleWithdraw s sid now = .ok (s2, r)) :
    s2.orders = s.orders := by
  unfold handleWithdraw at h
  by_cases hb : availableBalance (sellerTxns s sid) ≤ 0
  · rw [if_pos hb] at h; exact absurd h (by simp)
  · rw [if_neg hb] at h
    cases h
    rfl

theorem orders_handleSubmitNewProduct {s s2 : Store} {sid pid : Nat}
    {isCol : Bool} {n c u sn : String} {pr q la : ℚ} {picks : List Nat}
    {now : Nat}
    (h : handleSubmitNewProduct s sid isCol n c u sn pr q la picks now
           = (s2, pid)) :
    s2.orders = s.orders := by
  unfold handleSubmitNewProduct at h
  split at h <;> (cases h; rfl)

theorem orders_handleEditProduct (s : Store) (pid : Nat)
    (n c u : String) (pr q : ℚ) :
    (handleEditProduct s pid n c u pr q).orders = s.orders := rfl

/-- Every guarded handler invocation either leaves an order's status
unchanged, creates it in `pending`, or moves it along one edge of the
§4.1 transition table. -/
theorem gstep_status_edge {s s2 : Store} (h : GStep s s2) (t : Nat) :
    ordStatus s2 t = ordStatus s t ∨
    (ordStatus s t = none ∧ ordStatus s2 t = some "pending") ∨
    (∃ a b, allowedEdge a b ∧ ordStatus s t = some a ∧
      ordStatus s2 t = some b) := by
  cases h with
  | reserve h =>
    rcases ordStatus_handleReserve h t with h1 | h2
    · exact Or.inl h1
    · exact Or.inr (Or.inl h2)
  | approve hst h =>
    rename_i oid org now
    have heff := ordStatus_handleApprove h t
    by_cases ht : t = oid
    · subst ht
      rw [if_pos rfl] at heff
      exact Or.inr (Or.inr ⟨"pending", "approved",
        Or.inl ⟨rfl, rfl⟩, hst, heff⟩)
    · rw [if_neg ht] at heff
      exact Or.inl heff
  | reject hst h =>
    rename_i oid org now
    have heff := ordStatus_handleReject h t
    by_cases ht : t = oid
    · subst ht
      rw [if_pos rfl] at heff
      exact Or.inr (Or.inr ⟨"pending", "cancelled",
        Or.inr (Or.inl ⟨rfl, rfl⟩), hst, heff⟩)
    · rw [if_neg ht] at heff
      exact Or.inl heff
  | pay hst h =>
    rename_i oid now
    have heff := ordStatus_handlePay h t
    by_cases ht : t = oid
    · subst ht
      rw [if_pos rfl] at heff
      exact Or.inr (Or.inr ⟨"approved", "reserved",
        Or.inr (Or.inr (Or.inl ⟨rfl, rfl⟩)), hst, heff⟩)
    · rw [if_neg ht] at heff
      exact Or.inl heff
  | payTxnFailure hst h =>
    rename_i oid now
    have heff := ordStatus_handlePayTxnFailure h t
    by_cases ht : t = oid
    · subst ht
      rw [if_pos rfl] at heff
      exact Or.inr (Or.inr ⟨"approved", "reserved",
        Or.inr (Or.inr (Or.inl ⟨rfl, rfl⟩)), hst, heff⟩)
    · rw [if_neg ht] at heff
      exact Or.inl heff
  | complete hst h =>
    rename_i oid now
    have heff := ordStatus_handleComplete h t
    by_cases ht : t = oid
    · subst ht
      rw [if_pos rfl] at heff
      exact Or.inr (Or.inr ⟨"reserved", "completed",
        Or.inr (Or.inr (Or.inr ⟨rfl, rfl⟩)), hst, heff⟩)
    · rw [if_neg ht] at heff
      exact Or.inl heff
  | withdraw h =>
    exact Or.inl (ordStatus_congr (orders_handleWithdraw h) t)
  | newProduct h =>
    exact Or.inl (ordStatus_congr (orders_handleSubmitNewProduct h) t)
  | edit h =>
    subst h
    exact Or.inl (ordStatus_congr (orders_handleEditProduct ..) t)

theorem findOrder_congr {s s2 : Store} (h : s2.orders = s.orders) (t : Nat) :
    findOrder s2 t = findOrder s t := by
  unfold findOrder
  rw [h]

theorem findProduct_congr {s s2 : Store} (h : s2.products = s.products)
    (t : Nat) : findProduct s2 t = findProduct s t := by
  unfold findProduct
  rw [h]

/-- Reading the paid order back after the first Pay write. -/
theorem findOrder_payOrderUpdate_self {s : Store} {oid : Nat} {o : Order}
    {now : Nat} (hf : findOrder s oid = some o) :
    findOrder (payOrderUpdate s oid now) oid = some
      { o with status := "reserved", paid_at := some now,
               reservation_expiry := some (now + reservationOffset) } := by
  have hrw := findOrder_updateOrder s oid oid (fun o =>
    { o with status := "reserved", paid_at := some now,
             reservation_expiry := some (now + reservationOffset) })
    (fun _ => rfl)
  unfold payOrderUpdate
  rw [hrw, hf]
  simp [findOrder_id hf]

/-- An id-preserving order update that also preserves the total price
and the pickup credential leaves both readable unchanged on every
order. -/
theorem frame_updateOrder {s : Store} (oid t : Nat) (f : Order → Order)
    (hfid : ∀ o, (f o).id = o.id)
    (hfp : ∀ o, (f o).total_price = o.total_price)
    (hfc : ∀ o, (f o).pickup_code = o.pickup_code)
    {o : Order} (h : findOrder s t = some o) :
    ∃ o2, findOrder (updateOrder s oid f) t = some o2 ∧
      o2.total_price = o.total_price ∧ o2.pickup_code = o.pickup_code := by
  rw [findOrder_updateOrder s oid t f hfid, h]
  by_cases hid : o.id = oid
  · exact ⟨f o, by simp [hid], hfp o, hfc o⟩
  · exact ⟨o, by simp [hid], rfl, rfl⟩

/-- Success characterization of PlaceOrder. -/
theorem handleReserve_ok {s s2 : Store} {buyer pid oid : Nat} {qty : ℚ}
    {code bn : String} {now : Nat}
    (h : handleReserve s buyer pid qty code bn now = .ok (s2, oid)) :
    ∃ p, findProduct s pid = some p ∧ 0 < qty ∧ qty ≤ p.quantity_available ∧
      s2 = applyReserve s buyer pid qty code bn now p ∧ oid = s.nextId := by
  unfold handleReserve at h
  split at h
  · exact absurd h (by simp)
  split at h
  · exact absurd h (by simp)
  split at h
  · exact absurd h (by simp)
  · rename_i hq xo p hp hq2
    cases h
    exact ⟨p, hp, lt_of_not_le hq, le_of_not_lt hq2, rfl, rfl⟩

/-- Failure characterization of PlaceOrder: `InsufficientStock` is
returned exactly when the requested quantity exceeds the live counter
(given a positive request against an existing listing). -/
theorem handleReserve_insufficient {s : Store} {buyer pid : Nat} {qty : ℚ}
    {code bn : String} {now : Nat} {p : Product}
    (hp : findProduct s pid = some p) (hq : 0 < qty) :
    handleReserve s buyer pid qty code bn now = .error .InsufficientStock ↔
      qty > p.quantity_available := by
  unfold handleReserve
  rw [if_neg (not_le_of_lt hq), hp]
  by_cases hq2 : qty > p.quantity_available
  · simp [hq2]
  · simp [hq2]

/-- Stock read-back after a successful PlaceOrder. -/
theorem prodQty_applyReserve {s : Store} {pid : Nat} {p : Product}
    (buyer : Nat) (qty : ℚ) (code bn : String) (now : Nat)
    (hp : findProduct s pid = some p) :
    prodQty (applyReserve s buyer pid qty code bn now p) pid =
      some (max 0 (p.quantity_available - qty)) := by
  unfold applyReserve prodQty
  have hp2 : findProduct
      { s with orders := s.orders ++ [placeOrderDoc s buyer pid qty code bn now p],
               nextId := s.nextId + 1 } pid = some p := by
    rw [findProduct_congr rfl pid]
    exact hp
  have hrw := findProduct_updateProduct_self
    (fun q => { q with quantity_available := max 0 (p.quantity_available - qty) })
    (fun _ => rfl) hp2
  rw [hrw]
  rfl

/-- The freshly placed order read back after a successful PlaceOrder
(assuming the fresh id is not already taken, as Firestore guarantees). -/
theorem findOrder_applyReserve_new {s : Store} {pid : Nat} {p : Product}
    (buyer : Nat) (qty : ℚ) (code bn : String) (now : Nat)
    (hfresh : findOrder s s.nextId = none) :
    findOrder (applyReserve s buyer pid qty code bn now p) s.nextId =
      some (placeOrderDoc s buyer pid qty code bn now p) := by
  unfold applyReserve
  rw [findOrder_congr (orders_updateProduct ..) s.nextId]
  unfold findOrder at hfresh ⊢
  rw [find?_append_of_none _ hfresh]
  simp [List.find?, placeOrderDoc]

/-- Orders already present keep their full record across PlaceOrder. -/
theorem findOrder_applyReserve_old {s : Store} {pid t : Nat} {p : Product}
    (buyer : Nat) (qty : ℚ) (code bn : String) (now : Nat) {o : Order}
    (h : findOrder s t = some o) :
    findOrder (applyReserve s buyer pid qty code bn now p) t = some o := by
  unfold applyReserve
  rw [findOrder_congr (orders_updateProduct ..) t]
  unfold findOrder at h ⊢
  exact find?_append_of_some _ h


theorem availableBalance_shift (txs : List Txn) (a : ℚ) :
    txs.foldl (fun acc tx =>
      if tx.status == "cleared" || tx.status == "released" then acc + tx.amount
      else acc) a =
    a + availableBalance txs := by
  unfold availableBalance
  induction txs generalizing a with
  | nil => simp
  | cons tx rest ih =>
    simp only [List.foldl]
    by_cases hc : (tx.status == "cleared" || tx.status == "released")
    · rw [if_pos hc, if_pos hc, ih (a + tx.amount), ih (0 + tx.amount)]
      ring
    · rw [if_neg hc, if_neg hc, ih a]

theorem pendingPayments_shift (txs : List Txn) (a : ℚ) :
    txs.foldl (fun acc tx =>
      if tx.status == "cleared" || tx.status == "released" then acc
      else if tx.status == "held" then acc + tx.amount
      else acc) a =
    a + pendingPayments txs := by
  unfold pendingPayments
  induction txs generalizing a with
  | nil => simp
  | cons tx rest ih =>
    simp only [List.foldl]
    by_cases hc : (tx.status == "cleared" || tx.status == "released")
    · rw [if_pos hc, if_pos hc, ih a]
    · rw [if_neg hc, if_neg hc]
      by_cases hh : (tx.status == "held")
      · rw [if_pos hh, if_pos hh, ih (a + tx.amount), ih (0 + tx.amount)]
        ring
      · rw [if_neg hh, if_neg hh, ih a]

theorem availableBalance_cons (tx : Txn) (txs : List Txn) :
    availableBalance (tx :: txs) =
      (if tx.status == "cleared" || tx.status == "released" then tx.amount
       else 0) + availableBalance txs := by
  show List.foldl _ _ (tx :: txs) = _
  simp only [List.foldl]
  by_cases hc : (tx.status == "cleared" || tx.status == "released")
  · rw [if_pos hc, if_pos hc, availableBalance_shift]
    ring
  · rw [if_neg hc, if_neg hc, availableBalance_shift]
    try ring

theorem pendingPayments_cons (tx : Txn) (txs : List Txn) :
    pendingPayments (tx :: txs) =
      (if tx.status == "cleared" || tx.status == "released" then 0
       else if tx.status == "held" then tx.amount else 0) +
      pendingPayments txs := by
  show List.foldl _ _ (tx :: txs) = _
  simp only [List.foldl]
  by_cases hc : (tx.status == "cleared" || tx.status == "released")
  · rw [if_pos hc, if_pos hc, pendingPayments_shift]
    try ring
  · rw [if_neg hc, if_neg hc]
    by_cases hh : (tx.status == "held")
    · rw [if_pos hh, if_pos hh, pendingPayments_shift]
      ring
    · rw [if_neg hh, if_neg hh, pendingPayments_shift]
      try ring

theorem availableBalance_append (l1 l2 : List Txn) :
    availableBalance (l1 ++ l2) =
      availableBalance l1 + availableBalance l2 := by
  show List.foldl _ _ (l1 ++ l2) = _
  rw [List.foldl_append, availableBalance_shift]
  rfl

theorem filterSumCons (p : Txn → Bool) (tx : Txn) (rest : List Txn) :
    (((tx :: rest).filter p).map Txn.amount).sum =
      (if p tx then tx.amount else 0) +
        ((rest.filter p).map Txn.amount).sum := by
  by_cases hp : p tx
  · simp [List.filter_cons, hp]
  · simp [List.filter_cons, hp]

theorem availElem (tx : Txn)
    (hyptx : tx.amount < 0 → tx.status = "released" ∨ tx.status = "cleared") :
    (if tx.status == "cleared" || tx.status == "released" then tx.amount
     else 0) =
      (if (tx.status == "cleared" || tx.status == "released") &&
          decide (tx.amount > 0) then tx.amount else 0) +
      (if decide (tx.amount < 0) then tx.amount else 0) := by
  by_cases hc : (tx.status == "cleared" || tx.status == "released")
  · simp only [hc, if_true, Bool.true_and]
    rcases lt_trichotomy tx.amount 0 with ha | ha | ha
    · rw [if_neg (by simp; linarith), if_pos (by simp [ha])]
      ring
    · rw [if_neg (by simp [ha]), if_neg (by simp [ha]), ha]
      ring
    · rw [if_pos (by simp [ha]), if_neg (by simp; linarith)]
      ring
  · have hnneg : ¬ tx.amount < 0 := by
      intro hlt
      rcases hyptx hlt with hs | hs <;> (rw [hs] at hc; exact hc (by decide))
    simp [hc, hnneg]

theorem pendElem (tx : Txn)
    (hyptx : tx.amount < 0 → tx.status = "released" ∨ tx.status = "cleared") :
    (if tx.status == "cleared" || tx.status == "released" then 0
     else if tx.status == "held" then tx.amount else 0) =
      (if tx.status == "held" && decide (tx.amount > 0) then tx.amount
       else 0) := by
  by_cases hh : (tx.status == "held")
  · have hs : tx.status = "held" := by simpa using hh
    have hc : ¬ (tx.status == "cleared" || tx.status == "released") = true := by
      rw [hs]; decide
    have hnneg : ¬ tx.amount < 0 := by
      intro hlt
      rcases hyptx hlt with h2 | h2 <;>
        (rw [h2] at hs; exact absurd hs (by decide))
    rw [if_neg hc, if_pos hh]
    simp only [hh, Bool.true_and]
    rcases lt_trichotomy tx.amount 0 with ha | ha | ha
    · exact absurd ha hnneg
    · rw [if_neg (by simp [ha]), ha]
    · rw [if_pos (by simp [ha])]
  · have hrhs : ¬ (tx.status == "held" && decide (tx.amount > 0)) = true := by
      simp [hh]
    rw [if_neg hrhs]
    by_cases hc : (tx.status == "cleared" || tx.status == "released")
    · rw [if_pos hc]
    · rw [if_neg hc, if_neg hh]

/-- The dashboard aggregation agrees with the §3 formulas whenever every
negative-amount transaction carries status `released` or `cleared`
(true of all transactions this system ever creates: the only negative
ones are the withdrawal debits, written with status `released`). -/
theorem balance_agrees (txs : List Txn)
    (hyp : ∀ tx ∈ txs, tx.amount < 0 →
      (tx.status = "released" ∨ tx.status = "cleared")) :
    availableBalance txs = availableBalanceSpec txs ∧
      pendingPayments txs = pendingPaymentsSpec txs := by
  induction txs with
  | nil =>
    exact ⟨by simp [availableBalance, availableBalanceSpec],
      by simp [pendingPayments, pendingPaymentsSpec]⟩
  | cons tx rest ih =>
    have hyptx := hyp tx (by simp)
    have hyprest : ∀ t ∈ rest, t.amount < 0 →
        (t.status = "released" ∨ t.status = "cleared") :=
      fun t ht => hyp t (by simp [ht])
    obtain ⟨iha, ihp⟩ := ih hyprest
    constructor
    · rw [availableBalance_cons, iha]
      unfold availableBalanceSpec
      rw [filterSumCons, filterSumCons, availElem tx hyptx]
      ring
    · rw [pendingPayments_cons, ihp]
      unfold pendingPaymentsSpec
      rw [filterSumCons, pendElem tx hyptx]
      try ring

/-- The C8 safety property: no listing is simultaneously visible to
buyers and pledged as collateral. -/
def flagInv (s : Store) : Prop :=
  ∀ p ∈ s.products, p.is_active = true → p.is_collateral = false

theorem flagInv_updateProduct {s : Store} {pid : Nat} {f : Product → Product}
    (hf : ∀ p, (f p).is_active = p.is_active ∧
      (f p).is_collateral = p.is_collateral)
    (h : flagInv s) : flagInv (updateProduct s pid f) := by
  intro p hp ha
  rcases List.mem_map.1 hp with ⟨q, hq, rfl⟩
  by_cases hid : (q.id == pid)
  · rw [if_pos hid] at ha ⊢
    rw [(hf q).2]
    exact h q hq (by rw [(hf q).1] at ha; exact ha)
  · rw [if_neg hid] at ha ⊢
    exact h q hq ha

theorem flagInv_congr {s s2 : Store} (h : s2.products = s.products)
    (hinv : flagInv s) : flagInv s2 := by
  intro p hp
  rw [h] at hp
  exact hinv p hp

/-- Every handler invocation preserves the active/collateral exclusion:
products are only ever created with `is_active = !is_collateral`, and no
later write touches either flag. -/
theorem flagInv_step {s s2 : Store} (h : Step s s2) (hinv : flagInv s) :
    flagInv s2 := by
  cases h with
  | reserve h =>
    obtain ⟨p, hp, hq, hq2, rfl, hoid⟩ := handleReserve_ok h
    unfold applyReserve
    exact flagInv_updateProduct (fun q => ⟨rfl, rfl⟩)
      (fun x hx => hinv x hx)
  | approve h =>
    unfold handleApprove at h
    split at h
    · exact absurd h (by simp)
    · cases h
      exact flagInv_congr rfl hinv
  | reject h =>
    unfold handleReject at h
    split at h
    · exact absurd h (by simp)
    · cases h
      unfold rejectRestoreStock
      split
      · exact flagInv_congr rfl hinv
      · exact flagInv_updateProduct (fun q => ⟨rfl, rfl⟩)
          (fun x hx => hinv x hx)
  | pay h =>
    unfold handlePay at h
    split at h
    · exact absurd h (by simp)
    · cases h
      exact flagInv_congr
        ((products_payAddTxn ..).trans (products_updateOrder ..)) hinv
  | payTxnFailure h =>
    unfold handlePayTxnFailure at h
    split at h
    · exact absurd h (by simp)
    · cases h
      exact flagInv_congr (products_updateOrder ..) hinv
  | complete h =>
    unfold handleComplete at h
    split at h
    · exact absurd h (by simp)
    · cases h
      exact flagInv_congr rfl hinv
  | withdraw h =>
    unfold handleWithdraw at h
    dsimp only at h
    split at h
    · exact absurd h (by simp)
    · cases h
      exact flagInv_congr rfl hinv
  | newProduct h =>
    unfold handleSubmitNewProduct at h
    rename_i sid pid isCol n c u sn pr q la picks now
    split at h
    · rename_i hcol
      cases h
      intro p hp ha
      rcases List.mem_append.1 hp with hold | hnew
      · exact hinv p hold ha
      · rcases List.mem_singleton.1 hnew with rfl
        rw [hcol] at ha
        simp at ha
    · rename_i hcol
      cases h
      intro p hp ha
      rcases List.mem_append.1 hp with hold | hnew
      · exact hinv p hold ha
      · rcases List.mem_singleton.1 hnew with rfl
        have hc : isCol = false := by
          revert hcol
          cases isCol <;> simp
        simp [hc]
  | edit h =>
    subst h
    exact flagInv_updateProduct (fun q => ⟨rfl, rfl⟩) hinv

/-- Every reachable database satisfies the exclusion. -/
theorem flagInv_reachable {s : Store} (h : Reachable s) : flagInv s := by
  unfold Reachable at h
  induction h with
  | refl => intro p hp; simp [Store.empty] at hp
  | tail hsteps hstep ih => exact flagInv_step hstep ih

theorem handleApprove_some {s s2 : Store} {oid : Nat} {org : String}
    {now : Nat} (h : handleApprove s oid org now = some s2) :
    s2 = approveOrderUpdate s oid org now := by
  unfold handleApprove at h
  split at h
  · exact absurd h (by simp)
  · cases h; rfl

theorem handlePay_some {s s2 : Store} {oid now : Nat}
    (h : handlePay s oid now = some s2) :
    s2 = payAddTxn (payOrderUpdate s oid now) oid now := by
  unfold handlePay at h
  split at h
  · exact absurd h (by simp)
  · cases h; rfl

theorem handlePayTxnFailure_some {s s2 : Store} {oid now : Nat}
    (h : handlePayTxnFailure s oid now = some s2) :
    s2 = payOrderUpdate s oid now := by
  unfold handlePayTxnFailure at h
  split at h
  · exact absurd h (by simp)
  · cases h; rfl

theorem handleComplete_some {s s2 : Store} {oid now : Nat}
    (h : handleComplete s oid now = some s2) :
    s2 = releaseHeldTxns (completeOrderUpdate s oid now) oid now := by
  unfold handleComplete at h
  split at h
  · exact absurd h (by simp)
  · cases h; rfl

theorem handleReject_some {s s2 : Store} {oid : Nat} {org : String}
    {now : Nat} (h : handleReject s oid org now = some s2) :
    ∃ o, findOrder s oid = some o ∧
      s2 = rejectRestoreStock (rejectOrderUpdate s oid org now)
        o.product_id o.quantity := by
  unfold handleReject at h
  split at h
  · exact absurd h (by simp)
  · rename_i o hf
    cases h
    exact ⟨o, hf, rfl⟩

/-- A sample active listing: 10 units at unit price 20, seller 7. -/
def sampleProduct : Product :=
  { id := 0, seller_id := 7, name := "Wheat", category := "Grains",
    unit := "kg", price_per_unit := 20, quantity_available := 10,
    is_active := true, is_collateral := false, loan_amount := none }

/-- A sample order over 3 units of `sampleProduct` in a given status. -/
def sampleOrder (st : String) : Order :=
  { id := 1, buyer_id := 5, product_id := 0, seller_id := 7, quantity := 3,
    total_price := 60, reservation_fee := 3, status := st,
    fee_paid := true, pickup_code := "ABC123", buyer_name := "B",
    product_name := "Wheat", created_at := 0, approved_at := none,
    approved_by := none, cancelled_at := none, cancelled_by := none,
    paid_at := none, completed_at := none, reservation_expiry := none }

/-- A store holding `sampleProduct` and one `sampleOrder`. -/
def sampleStore (st : String) : Store :=
  { products := [sampleProduct], orders := [sampleOrder st],
    transactions := [], withdrawals := [], collaterals := [], nextId := 2 }

theorem transactions_payOrderUpdate (s : Store) (oid now : Nat) :
    (payOrderUpdate s oid now).transactions = s.transactions := rfl

theorem transactions_payAddTxn {s : Store} {oid : Nat} {o : Order}
    (now : Nat) (hf : findOrder s oid = some o) :
    (payAddTxn s oid now).transactions = s.transactions ++
      [{ seller_id := o.seller_id, order_id := .forOrder oid,
         amount := o.total_price, status := "held",
         available_at := some (now + reservationOffset),
         released_at := none, created_at := now }] := by
  unfold payAddTxn
  rw [hf]

/-- C1 (amended): Pay on an existing order sets status `reserved`,
stamps `paid_at` and a reservation expiry at the fixed 7-day offset, and
then — as a second, separate write — appends a `held` escrow transaction
for the order's total price releasable at the expiry; when the escrow
write fails the committed status write is NOT rolled back, so a state
with the order `reserved` and no transaction added is reachable. -/
theorem c1_pay_two_writes {s : Store} {oid : Nat} {o : Order} {now : Nat}
    (hf : findOrder s oid = some o) :
    (∃ s2, handlePay s oid now = some s2 ∧
       ordStatus s2 oid = some "reserved" ∧
       (findOrder s2 oid).map Order.paid_at = some (some now) ∧
       (findOrder s2 oid).map Order.reservation_expiry =
         some (some (now + reservationOffset)) ∧
       s2.transactions = s.transactions ++
         [{ seller_id := o.seller_id, order_id := .forOrder oid,
            amount := o.total_price, status := "held",
            available_at := some (now + reservationOffset),
            released_at := none, created_at := now }]) ∧
    (∃ s3, handlePayTxnFailure s oid now = some s3 ∧
       ordStatus s3 oid = some "reserved" ∧
       s3.transactions = s.transactions) := by
  have hpay : handlePay s oid now =
      some (payAddTxn (payOrderUpdate s oid now) oid now) := by
    unfold handlePay
    rw [hf]
  have hfail : handlePayTxnFailure s oid now =
      some (payOrderUpdate s oid now) := by
    unfold handlePayTxnFailure
    rw [hf]
  have hord := @findOrder_payOrderUpdate_self s oid o now hf
  constructor
  · refine ⟨_, hpay, ?_, ?_, ?_, ?_⟩
    · rw [ordStatus_congr (orders_payAddTxn ..) oid,
        ordStatus_payOrderUpdate hf oid, if_pos rfl]
    · rw [findOrder_congr (orders_payAddTxn ..) oid, hord]
      rfl
    · rw [findOrder_congr (orders_payAddTxn ..) oid, hord]
      rfl
    · rw [transactions_payAddTxn now hord, transactions_payOrderUpdate]
  · refine ⟨_, hfail, ?_, ?_⟩
    · rw [ordStatus_payOrderUpdate hf oid, if_pos rfl]
    · rfl

/-- Witness for C1's amended theorem at a concrete approved order. -/
theorem c1_pay_two_writes_witness :
    (∃ s2, handlePay (sampleStore "approved") 1 2 = some s2 ∧
       ordStatus s2 1 = some "reserved" ∧
       (findOrder s2 1).map Order.paid_at = some (some 2) ∧
       (findOrder s2 1).map Order.reservation_expiry =
         some (some (2 + reservationOffset)) ∧
       s2.transactions = (sampleStore "approved").transactions ++
         [{ seller_id := (sampleOrder "approved").seller_id,
            order_id := .forOrder 1,
            amount := (sampleOrder "approved").total_price, status := "held",
            available_at := some (2 + reservationOffset),
            released_at := none, created_at := 2 }]) ∧
    (∃ s3, handlePayTxnFailure (sampleStore "approved") 1 2 = some s3 ∧
       ordStatus s3 1 = some "reserved" ∧
       s3.transactions = (sampleStore "approved").transactions) :=
  c1_pay_two_writes
    (by norm_num [findOrder, sampleStore, sampleOrder, List.find?])

def c1sA : Store :=
  { products := [sampleProduct], orders := [], transactions := [],
    withdrawals := [], collaterals := [], nextId := 1 }

def c1sB : Store :=
  { products := [{ sampleProduct with quantity_available := 7 }],
    orders := [sampleOrder "pending"], transactions := [],
    withdrawals := [], collaterals := [], nextId := 2 }

def c1sC : Store :=
  { c1sB with orders := [{ sampleOrder "approved" with
      approved_at := some 1, approved_by := some "org" }] }

def c1sD : Store :=
  { c1sB with orders := [{ sampleOrder "reserved" with
      approved_at := some 1, approved_by := some "org",
      paid_at := some 2, reservation_expiry := some 9 }] }

/-- Counterexample to C1 as stated: a database reachable through the
handlers (place, approve, then Pay whose escrow `addDoc` throws after
the status `updateDoc` committed) shows order 1 in `reserved` with no
escrow transaction at all — the claimed rollback does not exist. -/
theorem c1_counterexample :
    Reachable c1sD ∧ ordStatus c1sD 1 = some "reserved" ∧
      c1sD.transactions = [] := by
  refine ⟨?_,
    by norm_num [ordStatus, findOrder, c1sD, c1sB, sampleOrder, List.find?],
    rfl⟩
  have h1 : Step Store.empty c1sA :=
    Step.newProduct (show handleSubmitNewProduct Store.empty 7 false
        "Wheat" "Grains" "kg" "S" 20 10 0 [] 0 = (c1sA, 0) by
      norm_num [handleSubmitNewProduct, Store.empty, c1sA, sampleProduct])
  have h2 : Step c1sA c1sB :=
    Step.reserve (show handleReserve c1sA 5 0 3 "ABC123" "B" 0
        = .ok (c1sB, 1) by
      norm_num [handleReserve, findProduct, applyReserve, placeOrderDoc,
        updateProduct, c1sA, c1sB, sampleProduct, sampleOrder, List.find?])
  have h3 : Step c1sB c1sC :=
    Step.approve (show handleApprove c1sB 1 "org" 1 = some c1sC by
      norm_num [handleApprove, approveOrderUpdate, updateOrder, findOrder,
        c1sB, c1sC, sampleProduct, sampleOrder, List.find?])
  have h4 : Step c1sC c1sD :=
    Step.payTxnFailure (show handlePayTxnFailure c1sC 1 2 = some c1sD by
      norm_num [handlePayTxnFailure, payOrderUpdate, updateOrder, findOrder,
        reservationOffset, c1sB, c1sC, c1sD, sampleProduct, sampleOrder,
        List.find?])
  exact ((((Relation.ReflTransGen.refl).tail h1).tail h2).tail h3).tail h4

/-- C2 (amended): every UI-guarded invocation (each action is offered
only when the order's fetched status permits it) leaves an order's
status unchanged, creates it as `pending`, or advances it along one edge
of `pending→approved`, `pending→cancelled`, `approved→reserved`,
`reserved→completed` — so guarded runs only produce the claimed status
sequences.  The raw handlers themselves check nothing (see the
counterexample): a call from a non-permitting status silently succeeds
and overwrites instead of failing with `InvalidTransition`. -/
theorem c2_guarded_transitions {s s2 : Store} (h : GStep s s2) (t : Nat) :
    ordStatus s2 t = ordStatus s t ∨
    (ordStatus s t = none ∧ ordStatus s2 t = some "pending") ∨
    (∃ a b, allowedEdge a b ∧ ordStatus s t = some a ∧
      ordStatus s2 t = some b) :=
  gstep_status_edge h t

/-- Witness for C2's amended theorem: a guarded Approve step on a
concrete pending order. -/
theorem c2_guarded_transitions_witness :
    ordStatus (approveOrderUpdate (sampleStore "pending") 1 "org" 1) 1 =
        ordStatus (sampleStore "pending") 1 ∨
      (ordStatus (sampleStore "pending") 1 = none ∧
        ordStatus (approveOrderUpdate (sampleStore "pending") 1 "org" 1) 1 =
          some "pending") ∨
      (∃ a b, allowedEdge a b ∧
        ordStatus (sampleStore "pending") 1 = some a ∧
        ordStatus (approveOrderUpdate (sampleStore "pending") 1 "org" 1) 1 =
          some b) :=
  c2_guarded_transitions
    (GStep.approve
      (show ordStatus (sampleStore "pending") 1 = some "pending" by
        norm_num [ordStatus, findOrder, sampleStore, sampleOrder,
          List.find?])
      (show handleApprove (sampleStore "pending") 1 "org" 1 =
          some (approveOrderUpdate (sampleStore "pending") 1 "org" 1) by
        norm_num [handleApprove, findOrder, sampleStore, sampleOrder,
          List.find?]))
    1

/-- Counterexample to C2 as stated: Pay invoked on an order whose
status (`completed`) does not permit it does not fail with
`InvalidTransition`; it silently succeeds and overwrites the status to
`reserved`, producing the sequence `completed, reserved` which matches
no permitted chain. -/
theorem c2_counterexample :
    ordStatus (sampleStore "completed") 1 = some "completed" ∧
    (handlePay (sampleStore "completed") 1 3).map (fun s => ordStatus s 1) =
      some (some "reserved") := by
  refine ⟨by norm_num [ordStatus, findOrder, sampleStore, sampleOrder,
    List.find?], ?_⟩
  norm_num [handlePay, payOrderUpdate, payAddTxn, updateOrder, ordStatus,
    findOrder, sampleStore, sampleOrder, List.find?, reservationOffset]

/-- One PlaceOrder request (the parameters a buyer supplies). -/
structure ReserveReq where
  buyer : Nat
  qty : ℚ
  code : String
  buyerName : String
  time : Nat
  deriving Repr, DecidableEq

/-- Run a sequence of PlaceOrder requests against one listing, recording
which ones succeeded. -/
def runReservations (s : Store) (pid : Nat) :
    List ReserveReq → Store × List Bool
  | [] => (s, [])
  | r :: rest =>
    match handleReserve s r.buyer pid r.qty r.code r.buyerName r.time with
    | .ok (s2, _) =>
      ((runReservations s2 pid rest).1, true :: (runReservations s2 pid rest).2)
    | .error _ =>
      ((runReservations s pid rest).1, false :: (runReservations s pid rest).2)

/-- Which requests fit, replaying the live counter. -/
def fitResults (q : ℚ) : List ReserveReq → List Bool
  | [] => []
  | r :: rest =>
    if 0 < r.qty ∧ r.qty ≤ q then true :: fitResults (q - r.qty) rest
    else false :: fitResults q rest

/-- Sum of the quantities of the requests marked succeeded. -/
def succQtySum : List ReserveReq → List Bool → ℚ
  | _, [] => 0
  | [], _ :: _ => 0
  | r :: rs, b :: bs => (if b then r.qty else 0) + succQtySum rs bs

theorem handleReserve_ok_of {s : Store} {pid : Nat} {qty : ℚ}
    {p : Product} (buyer : Nat) (code bn : String) (now : Nat)
    (hp : findProduct s pid = some p) (h1 : 0 < qty)
    (h2 : qty ≤ p.quantity_available) :
    handleReserve s buyer pid qty code bn now =
      .ok (applyReserve s buyer pid qty code bn now p, s.nextId) := by
  unfold handleReserve
  rw [if_neg (not_le_of_lt h1), hp]
  show (if qty > p.quantity_available then Except.error Err.InsufficientStock
    else Except.ok (applyReserve s buyer pid qty code bn now p, s.nextId)) = _
  rw [if_neg (not_lt_of_le h2)]

theorem handleReserve_error_of {s : Store} {pid : Nat} {qty : ℚ}
    {p : Product} (buyer : Nat) (code bn : String) (now : Nat)
    (hp : findProduct s pid = some p)
    (hnot : ¬ (0 < qty ∧ qty ≤ p.quantity_available)) :
    handleReserve s buyer pid qty code bn now =
      .error (if qty ≤ 0 then Err.InvalidQuantity
              else Err.InsufficientStock) := by
  by_cases h1 : qty ≤ 0
  · unfold handleReserve
    rw [if_pos h1, if_pos h1]
  · have h2 : p.quantity_available < qty := by
      rcases not_and_or.1 hnot with h | h
      · exact absurd (lt_of_not_le h1) h
      · exact lt_of_not_le h
    unfold handleReserve
    rw [if_neg h1, if_neg h1, hp]
    show (if qty > p.quantity_available then Except.error Err.InsufficientStock
      else Except.ok (applyReserve s buyer pid qty code bn now p, s.nextId))
        = _
    rw [if_pos h2]

theorem findProduct_applyReserve_self {s : Store} {pid : Nat} {p : Product}
    (buyer : Nat) (qty : ℚ) (code bn : String) (now : Nat)
    (hp : findProduct s pid = some p) :
    findProduct (applyReserve s buyer pid qty code bn now p) pid =
      some
        { p with quantity_available := max 0 (p.quantity_available - qty) } := by
  unfold applyReserve
  have hp2 : findProduct
      { s with orders := s.orders ++ [placeOrderDoc s buyer pid qty code bn now p],
               nextId := s.nextId + 1 } pid = some p := by
    rw [findProduct_congr rfl pid]
    exact hp
  exact findProduct_updateProduct_self
    (fun q => { q with quantity_available := max 0 (p.quantity_available - qty) })
    (fun _ => rfl) hp2

theorem runReservations_cons_ok {s s2 : Store} {pid oid : Nat}
    {r : ReserveReq} (rest : List ReserveReq)
    (h : handleReserve s r.buyer pid r.qty r.code r.buyerName r.time
           = .ok (s2, oid)) :
    runReservations s pid (r :: rest) =
      ((runReservations s2 pid rest).1,
        true :: (runReservations s2 pid rest).2) := by
  show (match handleReserve s r.buyer pid r.qty r.code r.buyerName r.time with
    | .ok (s3, _) =>
      ((runReservations s3 pid rest).1, true :: (runReservations s3 pid rest).2)
    | .error _ =>
      ((runReservations s pid rest).1, false :: (runReservations s pid rest).2))
    = _
  rw [h]

theorem runReservations_cons_error {s : Store} {pid : Nat} {e : Err}
    {r : ReserveReq} (rest : List ReserveReq)
    (h : handleReserve s r.buyer pid r.qty r.code r.buyerName r.time
           = .error e) :
    runReservations s pid (r :: rest) =
      ((runReservations s pid rest).1,
        false :: (runReservations s pid rest).2) := by
  show (match handleReserve s r.buyer pid r.qty r.code r.buyerName r.time with
    | .ok (s3, _) =>
      ((runReservations s3 pid rest).1, true :: (runReservations s3 pid rest).2)
    | .error _ =>
      ((runReservations s pid rest).1, false :: (runReservations s pid rest).2))
    = _
  rw [h]

theorem fitResults_cons (q : ℚ) (r : ReserveReq) (rest : List ReserveReq) :
    fitResults q (r :: rest) =
      if 0 < r.qty ∧ r.qty ≤ q then true :: fitResults (q - r.qty) rest
      else false :: fitResults q rest := rfl

theorem succQtySum_cons (r : ReserveReq) (rs : List ReserveReq) (b : Bool)
    (bs : List Bool) :
    succQtySum (r :: rs) (b :: bs) =
      (if b then r.qty else 0) + succQtySum rs bs := rfl

theorem runReservations_spec (reqs : List ReserveReq) :
    ∀ (s : Store) (pid : Nat) (p : Product),
      findProduct s pid = some p → 0 ≤ p.quantity_available →
      (runReservations s pid reqs).2 = fitResults p.quantity_available reqs ∧
      prodQty (runReservations s pid reqs).1 pid =
        some (p.quantity_available -
          succQtySum reqs (runReservations s pid reqs).2) ∧
      0 ≤ p.quantity_available -
        succQtySum reqs (runReservations s pid reqs).2 := by
  induction reqs with
  | nil =>
    intro s pid p hp h0
    refine ⟨rfl, ?_, ?_⟩
    · show prodQty s pid = some (p.quantity_available - succQtySum [] [])
      unfold prodQty succQtySum
      rw [hp]
      norm_num
    · show (0:ℚ) ≤ p.quantity_available - succQtySum [] []
      unfold succQtySum
      linarith
  | cons r rest ih =>
    intro s pid p hp h0
    by_cases hfit : 0 < r.qty ∧ r.qty ≤ p.quantity_available
    · have hok := handleReserve_ok_of r.buyer r.code r.buyerName r.time hp
        hfit.1 hfit.2
      have hmax : max 0 (p.quantity_available - r.qty) =
          p.quantity_available - r.qty :=
        max_eq_right (sub_nonneg.2 hfit.2)
      have hp2 : findProduct
          (applyReserve s r.buyer pid r.qty r.code r.buyerName r.time p) pid =
          some { p with quantity_available :=
            p.quantity_available - r.qty } := by
        rw [findProduct_applyReserve_self r.buyer r.qty r.code r.buyerName
          r.time hp, hmax]
      have ih2 := ih (applyReserve s r.buyer pid r.qty r.code r.buyerName
        r.time p) pid
        { p with quantity_available := p.quantity_available - r.qty } hp2
        (by show (0:ℚ) ≤ p.quantity_available - r.qty
            linarith [hfit.2])
      rw [runReservations_cons_ok rest hok, fitResults_cons, if_pos hfit]
      refine ⟨?_, ?_, ?_⟩
      · exact congrArg (true :: ·) ih2.1
      · show prodQty (runReservations _ pid rest).1 pid = _
        rw [ih2.2.1, succQtySum_cons, if_pos rfl]
        exact congrArg some (by dsimp only; ring)
      · rw [succQtySum_cons, if_pos rfl]
        have := ih2.2.2
        dsimp only at this
        linarith [this]
    · have herr := handleReserve_error_of r.buyer r.code r.buyerName r.time
        hp hfit
      rw [runReservations_cons_error rest herr, fitResults_cons, if_neg hfit]
      have ih2 := ih s pid p hp h0
      refine ⟨?_, ?_, ?_⟩
      · exact congrArg (false :: ·) ih2.1
      · show prodQty (runReservations s pid rest).1 pid = _
        rw [ih2.2.1, succQtySum_cons, if_neg (by simp)]
        exact congrArg some (by ring)
      · rw [succQtySum_cons, if_neg (by simp)]
        have := ih2.2.2
        linarith [this]

/-- C3: PlaceOrder fails with `InsufficientStock` exactly when the
requested quantity exceeds the live re-read counter; a success decrements
the counter by exactly the ordered quantity and creates the order in
`pending`; and over any sequence of placements exactly the requests that
fit succeed, leaving the counter at the initial quantity minus the sum of
the succeeded quantities, never negative. -/
theorem c3_place_order :
    (∀ (s : Store) (buyer pid : Nat) (qty : ℚ) (code bn : String)
       (now : Nat) (p : Product), findProduct s pid = some p → 0 < qty →
       (handleReserve s buyer pid qty code bn now =
          .error .InsufficientStock ↔ qty > p.quantity_available)) ∧
    (∀ (s s2 : Store) (buyer pid oid : Nat) (qty : ℚ) (code bn : String)
       (now : Nat), findOrder s s.nextId = none →
       handleReserve s buyer pid qty code bn now = .ok (s2, oid) →
       ∃ p, findProduct s pid = some p ∧ 0 < qty ∧
         qty ≤ p.quantity_available ∧
         prodQty s2 pid = some (p.quantity_available - qty) ∧
         ordStatus s2 oid = some "pending") ∧
    (∀ (s : Store) (pid : Nat) (p : Product) (reqs : List ReserveReq),
       findProduct s pid = some p → 0 ≤ p.quantity_available →
       (runReservations s pid reqs).2 = fitResults p.quantity_available reqs ∧
       prodQty (runReservations s pid reqs).1 pid =
         some (p.quantity_available -
           succQtySum reqs (runReservations s pid reqs).2) ∧
       0 ≤ p.quantity_available -
         succQtySum reqs (runReservations s pid reqs).2) := by
  refine ⟨?_, ?_, ?_⟩
  · intro s buyer pid qty code bn now p hp hq
    exact handleReserve_insufficient hp hq
  · intro s s2 buyer pid oid qty code bn now hfresh h
    obtain ⟨p, hp, h1, h2, rfl, rfl⟩ := handleReserve_ok h
    refine ⟨p, hp, h1, h2, ?_, ?_⟩
    · rw [prodQty_applyReserve buyer qty code bn now hp,
        max_eq_right (sub_nonneg.2 h2)]
    · unfold ordStatus
      rw [findOrder_applyReserve_new buyer qty code bn now hfresh]
      rfl
  · intro s pid p reqs hp h0
    exact runReservations_spec reqs s pid p hp h0

/-- Witness for C3 at concrete inputs: an oversized request fails, the
3-unit request of the C1 fixture succeeds with the counter dropping from
10 to 7, and the one-request run leaves 10 − 3. -/
theorem c3_place_order_witness :
    (handleReserve (sampleStore "pending") 5 0 99 "C" "B" 1 =
        .error .InsufficientStock ↔
      (99:ℚ) > sampleProduct.quantity_available) ∧
    (∃ p, findProduct c1sA 0 = some p ∧ (0:ℚ) < 3 ∧
      (3:ℚ) ≤ p.quantity_available ∧
      prodQty c1sB 0 = some (p.quantity_available - 3) ∧
      ordStatus c1sB 1 = some "pending") ∧
    ((runReservations c1sA 0 [⟨5, 3, "ABC123", "B", 0⟩]).2 =
        fitResults sampleProduct.quantity_available
          [⟨5, 3, "ABC123", "B", 0⟩] ∧
      prodQty (runReservations c1sA 0 [⟨5, 3, "ABC123", "B", 0⟩]).1 0 =
        some (sampleProduct.quantity_available -
          succQtySum [⟨5, 3, "ABC123", "B", 0⟩]
            (runReservations c1sA 0 [⟨5, 3, "ABC123", "B", 0⟩]).2) ∧
      0 ≤ sampleProduct.quantity_available -
          succQtySum [⟨5, 3, "ABC123", "B", 0⟩]
            (runReservations c1sA 0 [⟨5, 3, "ABC123", "B", 0⟩]).2) := by
  refine ⟨?_, ?_, ?_⟩
  · exact c3_place_order.1 (sampleStore "pending") 5 0 99 "C" "B" 1
      sampleProduct
      (by norm_num [findProduct, sampleStore, sampleProduct, List.find?])
      (by norm_num)
  · exact c3_place_order.2.1 c1sA c1sB 5 0 1 3 "ABC123" "B" 0
      (by norm_num [findOrder, c1sA, List.find?])
      (by norm_num [handleReserve, findProduct, applyReserve, placeOrderDoc,
        updateProduct, c1sA, c1sB, sampleProduct, sampleOrder, List.find?])
  · exact c3_place_order.2.2 c1sA 0 sampleProduct [⟨5, 3, "ABC123", "B", 0⟩]
      (by norm_num [findProduct, c1sA, sampleProduct, List.find?])
      (by norm_num [sampleProduct])

theorem handleReject_effects {s : Store} {oid : Nat} {org : String}
    {now : Nat} {o : Order} (hf : findOrder s oid = some o) {p : Product}
    (hp : findProduct s o.product_id = some p) :
    handleReject s oid org now =
      some (rejectRestoreStock (rejectOrderUpdate s oid org now)
        o.product_id o.quantity) ∧
    ordStatus (rejectRestoreStock (rejectOrderUpdate s oid org now)
      o.product_id o.quantity) oid = some "cancelled" ∧
    prodQty (rejectRestoreStock (rejectOrderUpdate s oid org now)
      o.product_id o.quantity) o.product_id =
      some (p.quantity_available + o.quantity) := by
  have heq : handleReject s oid org now =
      some (rejectRestoreStock (rejectOrderUpdate s oid org now)
        o.product_id o.quantity) := by
    unfold handleReject
    rw [hf]
  have hp1 : findProduct (rejectOrderUpdate s oid org now) o.product_id =
      some p := by
    unfold rejectOrderUpdate
    rw [findProduct_congr (products_updateOrder ..) o.product_id]
    exact hp
  have hrrs : rejectRestoreStock (rejectOrderUpdate s oid org now)
      o.product_id o.quantity =
      updateProduct (rejectOrderUpdate s oid org now) o.product_id
        (fun q =>
          { q with quantity_available := p.quantity_available + o.quantity })
      := by
    unfold rejectRestoreStock
    rw [hp1]
  refine ⟨heq, ?_, ?_⟩
  · rw [ordStatus_handleReject heq oid, if_pos rfl]
  · rw [hrrs]
    unfold prodQty
    rw [findProduct_updateProduct_self
      (fun q =>
        { q with quantity_available := p.quantity_available + o.quantity })
      (fun _ => rfl) hp1]
    rfl

/-- C4 (amended): Reject/Cancel on an existing order (the UI offers it
from `pending`) sets the status to `cancelled` and increments the
listing's counter by exactly the order's quantity; but the handler has
no status guard, so invoking it again on the already-`cancelled` order
silently succeeds and increments the counter a second time instead of
failing with `InvalidTransition`. -/
theorem c4_cancel_restores :
    (∀ (s : Store) (oid : Nat) (org : String) (now : Nat) (o : Order)
       (p : Product), findOrder s oid = some o →
       (o.status = "pending" ∨ o.status = "approved") →
       findProduct s o.product_id = some p →
       ∃ s2, handleReject s oid org now = some s2 ∧
         ordStatus s2 oid = some "cancelled" ∧
         prodQty s2 o.product_id =
           some (p.quantity_available + o.quantity)) ∧
    (∀ (s : Store) (oid : Nat) (org : String) (now : Nat) (o : Order)
       (p : Product), findOrder s oid = some o → o.status = "cancelled" →
       findProduct s o.product_id = some p →
       ∃ s2, handleReject s oid org now = some s2 ∧
         ordStatus s2 oid = some "cancelled" ∧
         prodQty s2 o.product_id =
           some (p.quantity_available + o.quantity)) := by
  constructor
  · intro s oid org now o p hf _hst hp
    obtain ⟨heq, hord, hqty⟩ := handleReject_effects hf hp
    exact ⟨_, heq, hord, hqty⟩
  · intro s oid org now o p hf _hst hp
    obtain ⟨heq, hord, hqty⟩ := handleReject_effects hf hp
    exact ⟨_, heq, hord, hqty⟩

/-- Witness for C4's amended theorem: rejecting the concrete pending
3-unit order restores the listing from 10 to 13. -/
theorem c4_cancel_restores_witness :
    ∃ s2, handleReject (sampleStore "pending") 1 "org" 5 = some s2 ∧
      ordStatus s2 1 = some "cancelled" ∧
      prodQty s2 (sampleOrder "pending").product_id =
        some (sampleProduct.quantity_available +
          (sampleOrder "pending").quantity) :=
  c4_cancel_restores.1 (sampleStore "pending") 1 "org" 5
    (sampleOrder "pending") sampleProduct
    (by norm_num [findOrder, sampleStore, sampleOrder, List.find?])
    (Or.inl rfl)
    (by norm_num [findProduct, sampleStore, sampleOrder, sampleProduct,
      List.find?])

def c4Store : Store :=
  { products := [{ sampleProduct with quantity_available := 13 }],
    orders := [{ sampleOrder "cancelled" with
      cancelled_at := some 5, cancelled_by := some "org" }],
    transactions := [], withdrawals := [], collaterals := [], nextId := 2 }

/-- Counterexample to C4 as stated: applying Cancel a second time to an
already-cancelled order is not rejected with `InvalidTransition`; it
succeeds and restores the stock a second time (13 becomes 16). -/
theorem c4_counterexample :
    ordStatus c4Store 1 = some "cancelled" ∧
    (handleReject c4Store 1 "org" 6).map (fun s => prodQty s 0) =
      some (some 16) := by
  constructor <;>
    norm_num [c4Store, ordStatus, prodQty, findOrder, findProduct,
      handleReject, rejectOrderUpdate, rejectRestoreStock, updateOrder,
      updateProduct, sampleOrder, sampleProduct, List.find?]

theorem map_eq_self_of {α : Type} {f : α → α} :
    ∀ {l : List α}, (∀ x ∈ l, f x = x) → l.map f = l := by
  intro l
  induction l with
  | nil => intro _; rfl
  | cons x rest ih =>
    intro h
    simp only [List.map]
    rw [h x (by simp), ih (fun y hy => h y (by simp [hy]))]

theorem findOrder_completeOrderUpdate_self {s : Store} {oid : Nat}
    {o : Order} {now : Nat} (hf : findOrder s oid = some o) :
    findOrder (completeOrderUpdate s oid now) oid =
      some { o with status := "completed", completed_at := some now } := by
  have hrw := findOrder_updateOrder s oid oid (fun o =>
    { o with status := "completed", completed_at := some now }) (fun _ => rfl)
  unfold completeOrderUpdate
  rw [hrw, hf]
  simp [findOrder_id hf]

/-- C5: Complete on a `reserved` order sets status `completed`, stamps
the completion time, and flips every `held` escrow transaction of that
order to `released`; when none is `held` the release loop is a no-op and
Complete still succeeds. -/
theorem c5_complete :
    ∀ (s : Store) (oid now : Nat) (o : Order),
      findOrder s oid = some o → o.status = "reserved" →
      ∃ s2, handleComplete s oid now = some s2 ∧
        ordStatus s2 oid = some "completed" ∧
        (findOrder s2 oid).map Order.completed_at = some (some now) ∧
        s2.transactions = s.transactions.map (fun tx =>
          if tx.order_id == .forOrder oid && tx.status == "held" then
            { tx with status := "released", released_at := some now }
          else tx) ∧
        (∀ tx ∈ s.transactions,
          tx.order_id = .forOrder oid → tx.status = "held" →
          { tx with status := "released", released_at := some now } ∈
            s2.transactions) ∧
        ((∀ tx ∈ s.transactions,
            ¬(tx.order_id = .forOrder oid ∧ tx.status = "held")) →
          s2.transactions = s.transactions) := by
  intro s oid now o hf _hst
  have heq : handleComplete s oid now =
      some (releaseHeldTxns (completeOrderUpdate s oid now) oid now) := by
    unfold handleComplete
    rw [hf]
  have htx : (releaseHeldTxns (completeOrderUpdate s oid now) oid
      now).transactions = s.transactions.map (fun tx =>
        if tx.order_id == .forOrder oid && tx.status == "held" then
          { tx with status := "released", released_at := some now }
        else tx) := rfl
  refine ⟨_, heq, ?_, ?_, htx, ?_, ?_⟩
  · rw [ordStatus_handleComplete heq oid, if_pos rfl]
  · rw [findOrder_congr (orders_releaseHeldTxns ..) oid,
      findOrder_completeOrderUpdate_self hf]
    rfl
  · intro tx htxmem h1 h2
    rw [htx]
    refine List.mem_map.2 ⟨tx, htxmem, ?_⟩
    rw [if_pos (by simp [h1, h2])]
  · intro hnone
    rw [htx]
    apply map_eq_self_of
    intro tx htxmem
    have hcond :
        ¬ ((tx.order_id == OrderRef.forOrder oid && tx.status == "held")
          = true) := by
      simp only [Bool.and_eq_true, beq_iff_eq]
      intro hcontra
      exact hnone tx htxmem ⟨hcontra.1, hcontra.2⟩
    rw [if_neg hcond]

def c5Order : Order :=
  { sampleOrder "reserved" with
    paid_at := some 2, reservation_expiry := some 9 }

def c5Txn : Txn :=
  { seller_id := 7, order_id := .forOrder 1, amount := 60,
    status := "held", available_at := some 9, released_at := none,
    created_at := 2 }

def c5Store : Store :=
  { products := [{ sampleProduct with quantity_available := 7 }],
    orders := [c5Order], transactions := [c5Txn],
    withdrawals := [], collaterals := [], nextId := 3 }

/-- Witness for C5 at a concrete reserved, paid order with one held
escrow transaction. -/
theorem c5_complete_witness :
    ∃ s2, handleComplete c5Store 1 4 = some s2 ∧
      ordStatus s2 1 = some "completed" ∧
      (findOrder s2 1).map Order.completed_at = some (some 4) ∧
      s2.transactions = c5Store.transactions.map (fun tx =>
        if tx.order_id == .forOrder 1 && tx.status == "held" then
          { tx with status := "released", released_at := some 4 }
        else tx) ∧
      (∀ tx ∈ c5Store.transactions,
        tx.order_id = .forOrder 1 → tx.status = "held" →
        { tx with status := "released", released_at := some 4 } ∈
          s2.transactions) ∧
      ((∀ tx ∈ c5Store.transactions,
          ¬(tx.order_id = .forOrder 1 ∧ tx.status = "held")) →
        s2.transactions = c5Store.transactions) :=
  c5_complete c5Store 1 4 c5Order
    (by norm_num [findOrder, c5Store, c5Order, sampleOrder, List.find?])
    rfl

def c6NegHeld : Txn :=
  { seller_id := 7, order_id := .forOrder 1, amount := -100,
    status := "held", available_at := none, released_at := none,
    created_at := 0 }

/-- Counterexample to C6 as stated: on the transaction set
`[-100 held]` the dashboard reports available 0 / pending −100 while the
claimed formulas give available −100 / pending 0, so `BalanceOf` does
not report the claimed formulas for every set of transactions. -/
theorem c6_counterexample :
    availableBalance [c6NegHeld] = 0 ∧
    pendingPayments [c6NegHeld] = -100 ∧
    availableBalanceSpec [c6NegHeld] = -100 ∧
    pendingPaymentsSpec [c6NegHeld] = 0 ∧
    availableBalance [c6NegHeld] ≠ availableBalanceSpec [c6NegHeld] := by
  refine ⟨?_, ?_, ?_, ?_, ?_⟩ <;>
    (norm_num [availableBalance, pendingPayments, availableBalanceSpec,
      pendingPaymentsSpec, c6NegHeld, List.filter]
     <;> simp)

def c6t100 : Txn :=
  { seller_id := 7, order_id := .forOrder 1, amount := 100,
    status := "held", available_at := none, released_at := none,
    created_at := 0 }

def c6t50 : Txn :=
  { seller_id := 7, order_id := .forOrder 2, amount := 50,
    status := "held", available_at := none, released_at := none,
    created_at := 0 }

def c6Store : Store :=
  { products := [], orders := [], transactions := [c6t100, c6t50],
    withdrawals := [], collaterals := [], nextId := 5 }

def c6StoreR : Store := releaseHeldTxns c6Store 1 3

def c6WTxn : Txn :=
  { seller_id := 7, order_id := .withdrawalRef 5, amount := -100,
    status := "released", available_at := none, released_at := none,
    created_at := 4 }

def c6StoreW : Store :=
  { products := [], orders := [],
    transactions := c6StoreR.transactions ++ [c6WTxn],
    withdrawals := [{ id := 5, seller_id := 7, amount := 100,
                      status := "pending", created_at := 4 }],
    collaterals := [], nextId := 6 }

/-- C6 (amended): the dashboard computes available = sum of all
`released`/`cleared` amounts (any sign) and pending = sum of all `held`
amounts; this coincides with the claimed formulas whenever negative
amounts occur only with status `released`/`cleared` (true of every
transaction the system creates), and the claimed concrete scenario
holds: [+100 held, +50 held] gives 0/150, releasing the 100 gives
100/50, and withdrawing creates a −100 transaction leaving available
0. -/
theorem c6_balance :
    (∀ txs : List Txn,
      (∀ tx ∈ txs, tx.amount < 0 →
        (tx.status = "released" ∨ tx.status = "cleared")) →
      availableBalance txs = availableBalanceSpec txs ∧
        pendingPayments txs = pendingPaymentsSpec txs) ∧
    (availableBalance (sellerTxns c6Store 7) = 0 ∧
      pendingPayments (sellerTxns c6Store 7) = 150) ∧
    (availableBalance (sellerTxns c6StoreR 7) = 100 ∧
      pendingPayments (sellerTxns c6StoreR 7) = 50) ∧
    (∃ s2 r, handleWithdraw c6StoreR 7 4 = .ok (s2, r) ∧ r.amount = 100 ∧
      s2.transactions = c6StoreR.transactions ++
        [{ seller_id := 7, order_id := .withdrawalRef 5, amount := -100,
           status := "released", available_at := none, released_at := none,
           created_at := 4 }] ∧
      availableBalance (sellerTxns s2 7) = 0) := by
  refine ⟨fun txs h => balance_agrees txs h, ⟨?_, ?_⟩, ⟨?_, ?_⟩,
    ⟨c6StoreW, { refId := 5, amount := 100, date := 4 }, ?_, rfl, ?_, ?_⟩⟩ <;>
    (norm_num [availableBalance, pendingPayments, sellerTxns, releaseHeldTxns,
      handleWithdraw, c6Store, c6StoreR, c6StoreW, c6WTxn, c6t100, c6t50,
      List.filter]
     <;> (try simp) <;> (try norm_num))

/-- Witness for C6's amended theorem at a concrete transaction set. -/
theorem c6_balance_witness :
    availableBalance [c6t100] = availableBalanceSpec [c6t100] ∧
      pendingPayments [c6t100] = pendingPaymentsSpec [c6t100] :=
  c6_balance.1 [c6t100]
    (by intro tx htx hneg
        simp only [List.mem_singleton] at htx
        subst htx
        norm_num [c6t100] at hneg)

/-- C7: Withdraw performs no write and reports nothing to withdraw
exactly when the computed available balance is ≤ 0; otherwise it creates
one negative `released` transaction for the full balance referencing a
synthetic withdrawal id, returns a receipt with reference id, amount and
timestamp, and leaves the available balance at exactly 0. -/
theorem c7_withdraw :
    ∀ (s : Store) (sid now : Nat),
      (handleWithdraw s sid now = .error .NothingToWithdraw ↔
        availableBalance (sellerTxns s sid) ≤ 0) ∧
      (0 < availableBalance (sellerTxns s sid) →
        ∃ s2, handleWithdraw s sid now = .ok (s2,
            { refId := s.nextId,
              amount := availableBalance (sellerTxns s sid), date := now }) ∧
          s2.transactions = s.transactions ++
            [{ seller_id := sid, order_id := .withdrawalRef s.nextId,
               amount := -(availableBalance (sellerTxns s sid)),
               status := "released", available_at := none,
               released_at := none, created_at := now }] ∧
          availableBalance (sellerTxns s2 sid) = 0) := by
  intro s sid now
  constructor
  · by_cases hb : availableBalance (sellerTxns s sid) ≤ 0
    · constructor
      · intro _; exact hb
      · intro _
        unfold handleWithdraw
        dsimp only
        rw [if_pos hb]
    · constructor
      · intro h
        exfalso
        unfold handleWithdraw at h
        dsimp only at h
        rw [if_neg hb] at h
        exact absurd h (by simp)
      · intro hle; exact absurd hle hb
  · intro hpos
    have heq : handleWithdraw s sid now = .ok
        ({ s with
            withdrawals := s.withdrawals ++
              [{ id := s.nextId, seller_id := sid,
                 amount := availableBalance (sellerTxns s sid),
                 status := "pending", created_at := now }],
            nextId := s.nextId + 1,
            transactions := s.transactions ++
              [{ seller_id := sid, order_id := .withdrawalRef s.nextId,
                 amount := -(availableBalance (sellerTxns s sid)),
                 status := "released", available_at := none,
                 released_at := none, created_at := now }] },
          { refId := s.nextId,
            amount := availableBalance (sellerTxns s sid), date := now }) := by
      unfold handleWithdraw
      dsimp only
      rw [if_neg (not_le_of_lt hpos)]
    refine ⟨_, heq, rfl, ?_⟩
    have hfilter : sellerTxns
        { s with
            withdrawals := s.withdrawals ++
              [{ id := s.nextId, seller_id := sid,
                 amount := availableBalance (sellerTxns s sid),
                 status := "pending", created_at := now }],
            nextId := s.nextId + 1,
            transactions := s.transactions ++
              [{ seller_id := sid, order_id := .withdrawalRef s.nextId,
                 amount := -(availableBalance (sellerTxns s sid)),
                 status := "released", available_at := none,
                 released_at := none, created_at := now }] } sid =
        sellerTxns s sid ++
          [{ seller_id := sid, order_id := .withdrawalRef s.nextId,
             amount := -(availableBalance (sellerTxns s sid)),
             status := "released", available_at := none,
             released_at := none, created_at := now }] := by
      unfold sellerTxns
      rw [List.filter_append]
      simp
    rw [hfilter, availableBalance_append, availableBalance_cons]
    simp [availableBalance]

def c7Txn : Txn :=
  { seller_id := 7, order_id := .forOrder 1, amount := 100,
    status := "released", available_at := none, released_at := some 3,
    created_at := 2 }

def c7Store : Store :=
  { products := [], orders := [], transactions := [c7Txn],
    withdrawals := [], collaterals := [], nextId := 9 }

/-- Witness for C7 at a concrete seller with a released 100 credit. -/
theorem c7_withdraw_witness :
    (handleWithdraw c7Store 7 4 = .error .NothingToWithdraw ↔
      availableBalance (sellerTxns c7Store 7) ≤ 0) ∧
    (∃ s2, handleWithdraw c7Store 7 4 = .ok (s2,
          { refId := 9, amount := availableBalance (sellerTxns c7Store 7),
            date := 4 }) ∧
        s2.transactions = c7Store.transactions ++
          [{ seller_id := 7, order_id := .withdrawalRef 9,
             amount := -(availableBalance (sellerTxns c7Store 7)),
             status := "released", available_at := none,
             released_at := none, created_at := 4 }] ∧
        availableBalance (sellerTxns s2 7) = 0) :=
  ⟨(c7_withdraw c7Store 7 4).1,
    (c7_withdraw c7Store 7 4).2
      (by norm_num [availableBalance, sellerTxns, c7Store, c7Txn,
        List.filter])⟩

/-- C8: Pledge creates a `pending` collateral record whose listing
snapshot (name, category, quantity, unit price, total value = quantity ×
unit price) is frozen from the submitted values, under a fresh `COL-`
prefixed 8-character identifier from its own namespace, and creates the
underlying listing inactive and collateral-flagged; consequently no
reachable database contains a listing that is both active and
collateral-flagged. -/
theorem c8_pledge :
    (∀ (s : Store) (sid : Nat) (n c u sn : String) (pr q la : ℚ)
       (picks : List Nat) (now : Nat),
       findProduct s s.nextId = none →
       ∃ s2 pid col prod,
         handleSubmitNewProduct s sid true n c u sn pr q la picks now
           = (s2, pid) ∧
         s2.collaterals = s.collaterals ++ [col] ∧
         col.status = "pending" ∧ col.crop_name = n ∧
         col.crop_category = c ∧ col.crop_quantity = q ∧
         col.crop_price_per_unit = pr ∧ col.crop_total_value = pr * q ∧
         col.loan_amount_requested = la ∧
         col.collateral_id = generateCollateralId picks ∧
         (∃ t, generateCollateralId picks = "COL-" ++ t ∧ t.length = 8) ∧
         findProduct s2 pid = some prod ∧ prod.is_active = false ∧
         prod.is_collateral = true) ∧
    (∀ s, Reachable s →
      ∀ p ∈ s.products, ¬(p.is_active = true ∧ p.is_collateral = true)) := by
  constructor
  · intro s sid n c u sn pr q la picks now hfresh
    refine ⟨_, _, _,
      { id := s.nextId, seller_id := sid, name := n, category := c,
        unit := u, price_per_unit := pr, quantity_available := q,
        is_active := !true, is_collateral := true,
        loan_amount := if true = true then some la else none },
      rfl, rfl, rfl, rfl, rfl, rfl, rfl, rfl, rfl, rfl,
      ⟨_, rfl, ?_⟩, ?_, rfl, rfl⟩
    · show (String.mk ((List.range 8).map _)).length = 8
      show ((List.range 8).map _).length = 8
      rw [List.length_map, List.length_range]
    · show findProduct _ s.nextId = some _
      unfold findProduct at hfresh ⊢
      show (s.products ++ [_]).find? _ = some _
      rw [find?_append_of_none _ hfresh]
      simp [List.find?]
  · intro s hreach p hp hand
    have hflag := flagInv_reachable hreach p hp hand.1
    rw [hand.2] at hflag
    exact absurd hflag (by decide)

/-- Witness for C8 at a concrete pledge from the empty database. -/
theorem c8_pledge_witness :
    (∃ s2 pid col prod,
      handleSubmitNewProduct Store.empty 7 true "Rice" "Grains" "kg" "S"
        20 10 300 [0, 1, 2, 3, 4, 5, 6, 7] 0 = (s2, pid) ∧
      s2.collaterals = Store.empty.collaterals ++ [col] ∧
      col.status = "pending" ∧ col.crop_name = "Rice" ∧
      col.crop_category = "Grains" ∧ col.crop_quantity = 10 ∧
      col.crop_price_per_unit = 20 ∧ col.crop_total_value = 20 * 10 ∧
      col.loan_amount_requested = 300 ∧
      col.collateral_id = generateCollateralId [0, 1, 2, 3, 4, 5, 6, 7] ∧
      (∃ t, generateCollateralId [0, 1, 2, 3, 4, 5, 6, 7] = "COL-" ++ t ∧
        t.length = 8) ∧
      findProduct s2 pid = some prod ∧ prod.is_active = false ∧
      prod.is_collateral = true) ∧
    (∀ p ∈ Store.empty.products,
      ¬(p.is_active = true ∧ p.is_collateral = true)) :=
  ⟨c8_pledge.1 Store.empty 7 "Rice" "Grains" "kg" "S" 20 10 300
      [0, 1, 2, 3, 4, 5, 6, 7] 0 rfl,
    c8_pledge.2 Store.empty Relation.ReflTransGen.refl⟩

/-- C9: Approve, Pay and Complete each rewrite only status and timestamp
fields; every order's total price and pickup credential read back
unchanged afterwards. -/
theorem c9_frame :
    (∀ (s s2 : Store) (oid : Nat) (org : String) (now t : Nat) (o : Order),
       handleApprove s oid org now = some s2 → findOrder s t = some o →
       ∃ o2, findOrder s2 t = some o2 ∧ o2.total_price = o.total_price ∧
         o2.pickup_code = o.pickup_code) ∧
    (∀ (s s2 : Store) (oid now t : Nat) (o : Order),
       handlePay s oid now = some s2 → findOrder s t = some o →
       ∃ o2, findOrder s2 t = some o2 ∧ o2.total_price = o.total_price ∧
         o2.pickup_code = o.pickup_code) ∧
    (∀ (s s2 : Store) (oid now t : Nat) (o : Order),
       handleComplete s oid now = some s2 → findOrder s t = some o →
       ∃ o2, findOrder s2 t = some o2 ∧ o2.total_price = o.total_price ∧
         o2.pickup_code = o.pickup_code) := by
  refine ⟨?_, ?_, ?_⟩
  · intro s s2 oid org now t o h hfo
    obtain rfl := handleApprove_some h
    exact frame_updateOrder oid t (fun o =>
      { o with status := "approved", approved_at := some now,
               approved_by := some org })
      (fun _ => rfl) (fun _ => rfl) (fun _ => rfl) hfo
  · intro s s2 oid now t o h hfo
    obtain rfl := handlePay_some h
    obtain ⟨o2, ho2, hp2, hc2⟩ := frame_updateOrder oid t (fun o =>
      { o with status := "reserved", paid_at := some now,
               reservation_expiry := some (now + reservationOffset) })
      (fun _ => rfl) (fun _ => rfl) (fun _ => rfl) hfo
    refine ⟨o2, ?_, hp2, hc2⟩
    rw [findOrder_congr (orders_payAddTxn ..) t]
    exact ho2
  · intro s s2 oid now t o h hfo
    obtain rfl := handleComplete_some h
    obtain ⟨o2, ho2, hp2, hc2⟩ := frame_updateOrder oid t (fun o =>
      { o with status := "completed", completed_at := some now })
      (fun _ => rfl) (fun _ => rfl) (fun _ => rfl) hfo
    refine ⟨o2, ?_, hp2, hc2⟩
    rw [findOrder_congr (orders_releaseHeldTxns ..) t]
    exact ho2

/-- Witness for C9 at the concrete fixtures for all three operations. -/
theorem c9_frame_witness :
    (∃ o2, findOrder (approveOrderUpdate (sampleStore "pending") 1 "org" 9)
        1 = some o2 ∧
      o2.total_price = (sampleOrder "pending").total_price ∧
      o2.pickup_code = (sampleOrder "pending").pickup_code) ∧
    (∃ o2, findOrder
        (payAddTxn (payOrderUpdate (sampleStore "approved") 1 2) 1 2) 1 =
          some o2 ∧
      o2.total_price = (sampleOrder "approved").total_price ∧
      o2.pickup_code = (sampleOrder "approved").pickup_code) ∧
    (∃ o2, findOrder
        (releaseHeldTxns (completeOrderUpdate c5Store 1 4) 1 4) 1 =
          some o2 ∧
      o2.total_price = c5Order.total_price ∧
      o2.pickup_code = c5Order.pickup_code) := by
  refine ⟨?_, ?_, ?_⟩
  · exact c9_frame.1 (sampleStore "pending") _ 1 "org" 9 1
      (sampleOrder "pending")
      (show handleApprove (sampleStore "pending") 1 "org" 9 =
          some (approveOrderUpdate (sampleStore "pending") 1 "org" 9) by
        norm_num [handleApprove, findOrder, sampleStore, sampleOrder,
          List.find?])
      (by norm_num [findOrder, sampleStore, sampleOrder, List.find?])
  · exact c9_frame.2.1 (sampleStore "approved") _ 1 2 1
      (sampleOrder "approved")
      (show handlePay (sampleStore "approved") 1 2 =
          some (payAddTxn (payOrderUpdate (sampleStore "approved") 1 2) 1 2)
        by norm_num [handlePay, findOrder, sampleStore, sampleOrder,
          List.find?])
      (by norm_num [findOrder, sampleStore, sampleOrder, List.find?])
  · exact c9_frame.2.2 c5Store _ 1 4 1 c5Order
      (show handleComplete c5Store 1 4 =
          some (releaseHeldTxns (completeOrderUpdate c5Store 1 4) 1 4) by
        norm_num [handleComplete, findOrder, c5Store, c5Order, sampleOrder,
          List.find?])
      (by norm_num [findOrder, c5Store, c5Order, sampleOrder, List.find?])

/-- C10: a placed order's stored reservation fee is exactly 5% of its
total price, the total price is the subtotal alone (live unit price ×
quantity, the fee not added), and the escrow hold created at payment is
for the total price only. -/
theorem c10_fee :
    ∀ (s s2 : Store) (buyer pid oid : Nat) (qty : ℚ) (code bn : String)
      (now : Nat), findOrder s s.nextId = none →
      handleReserve s buyer pid qty code bn now = .ok (s2, oid) →
      ∃ p o, findProduct s pid = some p ∧ findOrder s2 oid = some o ∧
        o.total_price = p.price_per_unit * qty ∧
        o.reservation_fee = o.total_price * (5 / 100) ∧
        (∀ (now2 : Nat) (s3 : Store), handlePay s2 oid now2 = some s3 →
          s3.transactions = s2.transactions ++
            [{ seller_id := o.seller_id, order_id := .forOrder oid,
               amount := o.total_price, status := "held",
               available_at := some (now2 + reservationOffset),
               released_at := none, created_at := now2 }]) := by
  intro s s2 buyer pid oid qty code bn now hfresh h
  obtain ⟨p, hp, h1, h2, rfl, rfl⟩ := handleReserve_ok h
  have hfo := @findOrder_applyReserve_new s pid p buyer qty code bn now
    hfresh
  refine ⟨p, placeOrderDoc s buyer pid qty code bn now p, hp, hfo, rfl, rfl,
    ?_⟩
  intro now2 s3 hpay
  obtain rfl := handlePay_some hpay
  rw [transactions_payAddTxn now2 (findOrder_payOrderUpdate_self hfo)]
  rfl

/-- Witness for C10 at the concrete 3-unit order: total 60, fee 3. -/
theorem c10_fee_witness :
    ∃ p o, findProduct c1sA 0 = some p ∧ findOrder c1sB 1 = some o ∧
      o.total_price = p.price_per_unit * 3 ∧
      o.reservation_fee = o.total_price * (5 / 100) ∧
      (∀ (now2 : Nat) (s3 : Store), handlePay c1sB 1 now2 = some s3 →
        s3.transactions = c1sB.transactions ++
          [{ seller_id := o.seller_id, order_id := .forOrder 1,
             amount := o.total_price, status := "held",
             available_at := some (now2 + reservationOffset),
             released_at := none, created_at := now2 }]) :=
  c10_fee c1sA c1sB 5 0 1 3 "ABC123" "B" 0
    (by norm_num [findOrder, c1sA, List.find?])
    (by norm_num [handleReserve, findProduct, applyReserve, placeOrderDoc,
      updateProduct, c1sA, c1sB, sampleProduct, sampleOrder, List.find?])

end CropStack
